import Mathlib

/-!
# droidVncServer: command line, backend selection and screen set-up

A shallow embedding of `src/jni/vnc/droidvncserver.c` (argument loop of `main`,
`extractReverseHostPort`, `initGrabberMethod`, `newVncServer`) and of the modern
`getscreenformat_flinger` of `src/nativeMethods/flinger/flinger.cpp`.

Conventions.
* A C string is the list of its characters up to, and without, the terminating NUL.
* `int` values are integers kept in the 32-bit two's complement range by `wrapInt32`;
  `uint16_t` values are naturals below `2^16`, stores go through `toU16`.
* File-scope variables of `droidvncserver.c` are the fields of `Globals`.
* A run that leaves the normal control flow (`exit`, a failed `assert`, a read through a
  null pointer, a write past an array) is an `Abort`.
-/

namespace DroidVnc

deriving instance DecidableEq for Except

/-! ## Machine integers and C strings -/

/-- A NUL-terminated C string, without its terminator. -/
abbrev CStr := List Char

/-- Value of a 32-bit two's complement `int` holding the mathematical integer `z`. -/
def wrapInt32 (z : Int) : Int := (z + 2147483648) % 4294967296 - 2147483648

/-- Conversion of an `int` to `uint16_t` (reduction modulo `2^16`). -/
def toU16 (z : Int) : Nat := (z % 65536).toNat

/-- C `isspace` in the "C" locale. -/
def isspace (c : Char) : Bool :=
  c == ' ' || c == '\t' || c == '\n' || c == '\x0b' || c == '\x0c' || c == '\r'

/-- C `isdigit`. -/
def isdigit (c : Char) : Bool := decide (48 ≤ c.toNat ∧ c.toNat ≤ 57)

/-- Digit loop of `atoi`: accumulates the leading run of decimal digits. -/
def atoiDigits : CStr → Nat → Nat
  | [], acc => acc
  | c :: cs, acc => if isdigit c then atoiDigits cs (acc * 10 + (c.toNat - 48)) else acc

/-- C library `atoi`: skips leading white space, reads an optional sign and the longest run
of decimal digits; text without digits gives 0.  The C standard leaves the result
unspecified when the value does not fit an `int`; here it is reduced to 32 bits. -/
def atoi (s : CStr) : Int :=
  match s.dropWhile isspace with
  | '-' :: r => wrapInt32 (-(atoiDigits r 0 : Int))
  | '+' :: r => wrapInt32 (atoiDigits r 0)
  | r => wrapInt32 (atoiDigits r 0)

/-- C `strrchr(s, c)` for `c ≠ NUL`: the offset of the last occurrence of `c` in `s`,
`none` for the null pointer. -/
def strrchr : CStr → Char → Option Nat
  | [], _ => none
  | x :: xs, c =>
    match strrchr xs c with
    | some k => some (k + 1)
    | none => if x = c then some 0 else none

/-! ## File-scope state of `droidvncserver.c` -/

/-- Backend selector, `enum method_type`. -/
inductive method_type where
  | AUTO | FRAMEBUFFER | ADB | GRALLOC | FLINGER
  deriving DecidableEq, Repr

/-- Ways a run leaves the normal control flow. -/
inductive Abort where
  /-- Call of `exit(status)`, directly or through `close_app_with_status`. -/
  | exit (status : Int)
  /-- A read through `argv[argc]`, which is the null pointer. -/
  | nullDeref
  /-- A copy that writes past the end of a fixed-size array. -/
  | overflow
  /-- A failed `assert`. -/
  | assertFail
  /-- The iteration bound of the embedding ran out; `parseArgs_fuel` shows that the
  argument loop never ends this way. -/
  | fuel
  deriving DecidableEq, Repr

/-- The file-scope variables of `droidvncserver.c` together with the two settings it hands
to other modules (`rfbLogEnable`, `FB_setDevice`). -/
structure Globals where
  /-- `char VNC_PASSWORD[256]`, as a C string. -/
  VNC_PASSWORD : CStr
  /-- `int VNC_PORT`. -/
  VNC_PORT : Int
  /-- `uint32_t idle`. -/
  idle : Nat
  /-- `uint32_t standby`. -/
  standby : Nat
  /-- `uint16_t rotation`. -/
  rotation : Nat
  /-- `uint16_t scaling`. -/
  scaling : Nat
  /-- `uint8_t display_rotate_180`. -/
  display_rotate_180 : Nat
  /-- `volatile uint8_t running`. -/
  running : Nat
  /-- `char *rhost`, `none` for `NULL`. -/
  rhost : Option CStr
  /-- `int rport`. -/
  rport : Int
  /-- `char repeaterId[127]`: all 127 bytes of the array. -/
  repeaterId : List Char
  /-- `enum method_type method`. -/
  method : method_type
  /-- Last level given to `rfbLogEnable`, if any. -/
  logLevel : Option Int
  /-- Last path given to `FB_setDevice`, if any. -/
  fbDevice : Option CStr
  deriving DecidableEq, Repr

/-- The initialisers of the file-scope variables, with `repeaterId[0] = 0` of `main`
(the array has static storage, so it is all zero). -/
def initialGlobals : Globals where
  VNC_PASSWORD := []
  VNC_PORT := 5901
  idle := 0
  standby := 1
  rotation := 0
  scaling := 100
  display_rotate_180 := 0
  running := 0
  rhost := none
  rport := 5500
  repeaterId := List.replicate 127 (Char.ofNat 0)
  method := method_type.AUTO
  logLevel := none
  fbDevice := none

/-- What the environment answers to the calls the embedded code makes. -/
structure Env where
  /-- Whether `malloc` in `extractReverseHostPort` returns a non-null pointer. -/
  mallocOk : Bool
  /-- Return value of `initFlinger()`. -/
  initFlinger : Int
  /-- Return value of `initGralloc()`. -/
  initGralloc : Int
  /-- Return value of `initFB()`. -/
  initFB : Int
  /-- Return value `initADB()` would give. -/
  initADB : Int
  /-- Whether both `calloc` calls of `newVncServer` return non-null pointers. -/
  callocOk : Bool
  /-- Whether `rfbGetScreen` returns a non-null screen. -/
  rfbGetScreenOk : Bool
  deriving DecidableEq, Repr

/-! ## `extractReverseHostPort` -/

/-- `extractReverseHostPort(str)`: copies `str` into a fresh `rhost`; when it holds a colon,
the text after the last colon is read with `atoi` into `rport`, a negative port is negated,
a port below 20 is offset by 5500, and `rhost` is cut at that colon. -/
def extractReverseHostPort (env : Env) (str : CStr) (g : Globals) : Except Abort Globals :=
  if env.mallocOk = false then
    Except.error (Abort.exit 2)
  else
    match strrchr str ':' with
    | some p =>
      let rport := atoi (str.drop (p + 1))
      let rport :=
        if rport < 0 then wrapInt32 (-rport)
        else if rport < 20 then wrapInt32 (5500 + rport)
        else rport
      Except.ok { g with rhost := some (str.take p), rport := rport }
    | none => Except.ok { g with rhost := some str }

/-! ## The argument loop of `main` -/

/-- The NUL character. -/
def NUL : Char := Char.ofNat 0

/-- The value argument of a flag: `argv[i]` after the `i++` of a `case`.  It is `none`
when `i` has become `argc`, where `argv[argc]` is the null pointer, and the string
functions applied to it fault. -/
def flagValue (next : Option CStr) : Except Abort CStr :=
  match next with
  | some v => Except.ok v
  | none => Except.error Abort.nullDeref

/-- The `switch (*(argv[i] + 1))` of the loop body (lines 372-440): `c` is the character
after the dash, `next` is `argv[i+1]`.  Every `case` starts with `i++`, also that of `z`,
which reads no value; a letter without a `case` leaves the `switch` at once.  The result is
the value of `i` after the `i++` that ends the loop body, with the updated variables. -/
def flagSwitch (env : Env) (c : Char) (next : Option CStr) (i : Nat) (g : Globals) :
    Except Abort (Nat × Globals) :=
  if c = 'h' then
    Except.error (Abort.exit 0)
  else if c = 'd' then
    match flagValue next with
    | Except.error e => Except.error e
    | Except.ok v => Except.ok (i + 2, { g with logLevel := some (atoi v) })
  else if c = 'p' then
    match flagValue next with
    | Except.error e => Except.error e
    | Except.ok v =>
      if v.length < 256 then Except.ok (i + 2, { g with VNC_PASSWORD := v })
      else Except.error Abort.overflow
  else if c = 'f' then
    match flagValue next with
    | Except.error e => Except.error e
    | Except.ok v => Except.ok (i + 2, { g with fbDevice := some v })
  else if c = 'z' then
    Except.ok (i + 2, { g with display_rotate_180 := 1 })
  else if c = 'P' then
    match flagValue next with
    | Except.error e => Except.error e
    | Except.ok v => Except.ok (i + 2, { g with VNC_PORT := atoi v })
  else if c = 'r' then
    match flagValue next with
    | Except.error e => Except.error e
    | Except.ok v =>
      if atoi v = 0 ∨ atoi v = 90 ∨ atoi v = 180 ∨ atoi v = 270 then
        Except.ok (i + 2, { g with rotation := toU16 (atoi v) })
      else Except.ok (i + 2, g)
  else if c = 's' then
    match flagValue next with
    | Except.error e => Except.error e
    | Except.ok v =>
      if 1 ≤ atoi v ∧ atoi v ≤ 150 then Except.ok (i + 2, { g with scaling := toU16 (atoi v) })
      else Except.ok (i + 2, { g with scaling := 100 })
  else if c = 'R' then
    match flagValue next with
    | Except.error e => Except.error e
    | Except.ok v =>
      match extractReverseHostPort env v g with
      | Except.error e => Except.error e
      | Except.ok g1 => Except.ok (i + 2, g1)
  else if c = 'i' then
    match flagValue next with
    | Except.error e => Except.error e
    | Except.ok v =>
      if v.length ≤ 127 then
        Except.ok (i + 2, { g with repeaterId := v ++ g.repeaterId.drop v.length })
      else Except.error Abort.overflow
  else if c = 'm' then
    match flagValue next with
    | Except.error e => Except.error e
    | Except.ok v =>
      if v = "adb".toList then Except.ok (i + 2, { g with method := method_type.ADB })
      else if v = "fb".toList then
        Except.ok (i + 2, { g with method := method_type.FRAMEBUFFER })
      else if v = "gralloc".toList then
        Except.ok (i + 2, { g with method := method_type.GRALLOC })
      else if v = "flinger".toList then
        Except.ok (i + 2, { g with method := method_type.FLINGER })
      else Except.ok (i + 2, g)
  else Except.ok (i + 1, g)

/-- One pass through the body of `while (i < argc)` (lines 371-442): `cur` is `argv[i]`
and `next` is `argv[i+1]`.  An argument that does not start with a dash is stepped over. -/
def argBody (env : Env) (cur : CStr) (next : Option CStr) (i : Nat) (g : Globals) :
    Except Abort (Nat × Globals) :=
  if cur.head? = some '-' then flagSwitch env (cur.getD 1 NUL) next i g
  else Except.ok (i + 1, g)

/-- The loop body at index `i` of the vector `argv` (`argc = argv.length`). -/
def argStep (env : Env) (argv : List CStr) (i : Nat) (g : Globals) :
    Except Abort (Nat × Globals) :=
  match argv[i]? with
  | some cur => argBody env cur argv[i + 1]? i g
  | none => Except.error Abort.nullDeref

/-- The loop `while (i < argc)`, bounded by `fuel` passes. -/
def argLoop (env : Env) (argv : List CStr) : Nat → Nat → Globals → Except Abort Globals
  | fuel, i, g =>
    if i < argv.length then
      match fuel with
      | 0 => Except.error Abort.fuel
      | n + 1 =>
        match argStep env argv i g with
        | Except.error e => Except.error e
        | Except.ok (j, g1) => argLoop env argv n j g1
    else Except.ok g

/-- Lines 367-444 of `main`: the loop starts at `i = 1`; each pass advances `i`, so
`argc` passes are enough. -/
def parseArgs (env : Env) (argv : List CStr) (g : Globals) : Except Abort Globals :=
  argLoop env argv argv.length 1 g

/-! ## Backend selection: `initGrabberMethod` -/

/-- Return value of the `init` function of a backend in the environment `env`
(`initFlinger`, `initGralloc`, `initFB`, `initADB`); `AUTO` has no `init`. -/
def initRet (env : Env) : method_type → Int
  | method_type.FLINGER => env.initFlinger
  | method_type.GRALLOC => env.initGralloc
  | method_type.FRAMEBUFFER => env.initFB
  | method_type.ADB => env.initADB
  | method_type.AUTO => 0

/-- `initGrabberMethod()`: the new value of `method` and the backends whose `init` was
called, in call order.  Both ADB branches are inside `#if 0` and are not compiled; the
explicit branches discard the return value of `init`. -/
def initGrabberMethod (env : Env) (method : method_type) : method_type × List method_type :=
  if method = method_type.AUTO then
    if env.initFlinger ≠ -1 then
      (method_type.FLINGER, [method_type.FLINGER])
    else if env.initGralloc ≠ -1 then
      (method_type.GRALLOC, [method_type.FLINGER, method_type.GRALLOC])
    else if env.initFB ≠ -1 then
      (method_type.FRAMEBUFFER,
        [method_type.FLINGER, method_type.GRALLOC, method_type.FRAMEBUFFER])
    else
      (method, [method_type.FLINGER, method_type.GRALLOC, method_type.FRAMEBUFFER])
  else if method = method_type.FRAMEBUFFER then (method, [method_type.FRAMEBUFFER])
  else if method = method_type.GRALLOC then (method, [method_type.GRALLOC])
  else if method = method_type.FLINGER then (method, [method_type.FLINGER])
  else (method, [])

/-! ## Pixel formats and the protocol screen -/

/-- Modelled from the spec: the Pixel Format record `{bits_per_pixel; red_shift, green_shift,
blue_shift, alpha_shift; red_max, green_max, blue_max, alpha_max; width; height; byte_size}`,
the type `screenFormat` of `screenFormat.h`, which is not among the sources.  The field
names are those used by `droidvncserver.c` and `flinger.cpp`. -/
structure screenFormat where
  width : Nat
  height : Nat
  bitsPerPixel : Nat
  redMax : Nat
  greenMax : Nat
  blueMax : Nat
  alphaMax : Nat
  redShift : Nat
  greenShift : Nat
  blueShift : Nat
  alphaShift : Nat
  size : Nat
  deriving DecidableEq, Repr

/-- Modelled from the spec: the server pixel format `{bpp, shifts, maxes}` of
`set_server_format`, the fields of `rfbPixelFormat` that `newVncServer` writes.  A channel
maximum is `none` when the C expression that computes it has no defined value. -/
structure rfbPixelFormat where
  bitsPerPixel : Nat
  trueColour : Bool
  redMax : Option Nat
  greenMax : Option Nat
  blueMax : Option Nat
  redShift : Nat
  greenShift : Nat
  blueShift : Nat
  deriving DecidableEq, Repr

/-- Modelled from the spec: a client of the Client Roster, with its "resize pending" flag
(`rfbClientRec.newFBSizePending`). -/
structure rfbClientRec where
  newFBSizePending : Bool
  onHold : Bool
  deriving DecidableEq, Repr

/-- Modelled from the spec: the protocol server's screen object (`rfbScreenInfo` of
`rfb/rfb.h`, which is not among the sources), with the fields `droidvncserver.c` reads or
writes, the client roster `clientHead` and the rectangles handed to
`rfbMarkRectAsModified`, oldest first. -/
structure rfbScreenInfo where
  width : Int
  height : Int
  paddedWidthInBytes : Int
  desktopName : String
  port : Int
  authPasswdData : Option (List CStr)
  httpDir : String
  serverFormat : rfbPixelFormat
  alwaysShared : Bool
  handleEventsEagerly : Bool
  deferUpdateTime : Int
  clientHead : List rfbClientRec
  modified : List (Int × Int × Int × Int)
  deriving DecidableEq, Repr

/-- Modelled from the spec: `create_screen(width, height, bytes_per_pixel) → Screen`, the
call `rfbGetScreen(&argc, argv, width, height, bitsPerSample, samplesPerPixel,
bytesPerPixel)` of the protocol server, which is not among the sources: a fresh screen of
the given width and height, no client, nothing marked. -/
def rfbGetScreen (width height bytesPerPixel : Int) : rfbScreenInfo where
  width := width
  height := height
  paddedWidthInBytes := width * bytesPerPixel
  desktopName := ""
  port := 5900
  authPasswdData := none
  httpDir := ""
  serverFormat := {
    bitsPerPixel := (8 * bytesPerPixel).toNat, trueColour := true,
    redMax := some 0, greenMax := some 0, blueMax := some 0,
    redShift := 0, greenShift := 0, blueShift := 0 }
  alwaysShared := false
  handleEventsEagerly := false
  deferUpdateTime := 0
  clientHead := []
  modified := []

/-- The C expression `((1 << b) - 1)` on `int`, stored in a `uint16_t` field.  The shift is
defined for `b ≤ 30`, where `2^b` fits an `int`; the store keeps the low 16 bits.  For
`b ≥ 31` the shift has no defined value. -/
def channelMax (b : Nat) : Option Nat :=
  if b ≤ 30 then some (toU16 ((2 : Int) ^ b - 1)) else none

/-- `newVncServer(argc, argv)`, lines 144-199: allocates the two buffers, creates the
screen with the backend size, swapped unless `rotation` is 0 or 180, and fills in port,
password list and server pixel format from `screenformat` (`sf`).  The event hooks are
not part of the embedding. -/
def newVncServer (env : Env) (g : Globals) (sf : screenFormat) : Except Abort rfbScreenInfo :=
  if env.callocOk = false then Except.error Abort.assertFail
  else
    let vncscr :=
      if g.rotation = 0 ∨ g.rotation = 180 then
        rfbGetScreen sf.width sf.height (sf.bitsPerPixel / 8 : Nat)
      else
        rfbGetScreen sf.height sf.width (sf.bitsPerPixel / 8 : Nat)
    if env.rfbGetScreenOk = false then Except.error Abort.assertFail
    else
      Except.ok { vncscr with
        desktopName := "Android"
        port := g.VNC_PORT
        authPasswdData := if g.VNC_PASSWORD ≠ [] then some [g.VNC_PASSWORD]
          else vncscr.authPasswdData
        httpDir := "webclients/"
        serverFormat := {
          redShift := sf.redShift
          greenShift := sf.greenShift
          blueShift := sf.blueShift
          redMax := channelMax sf.redMax
          greenMax := channelMax sf.greenMax
          blueMax := channelMax sf.blueMax
          trueColour := true
          bitsPerPixel := sf.bitsPerPixel }
        alwaysShared := true
        handleEventsEagerly := true
        deferUpdateTime := 5 }

/-! ## The modern FLINGER backend (`flinger.cpp`, `__ANDROID_API__ > 15`) -/

/-- What the `ScreenshotClient` answers to `getWidth`, `getHeight`, `getSize` and
`getFormat` after a capture. -/
structure ScreenshotClient where
  width : Nat
  height : Nat
  size : Nat
  format : Nat
  deriving DecidableEq, Repr

/-- The platform constant `android::PIXEL_FORMAT_RGB_565` of `ui/PixelFormat.h`. -/
def PIXEL_FORMAT_RGB_565 : Nat := 4

/-- The platform constant `android::PIXEL_FORMAT_RGBA_8888` of `ui/PixelFormat.h`. -/
def PIXEL_FORMAT_RGBA_8888 : Nat := 1

/-- The platform function `android::bitsPerPixel` on the two formats above (16 for
RGB_565, 32 for the 8888 formats). -/
def androidBitsPerPixel (f : Nat) : Nat := if f = PIXEL_FORMAT_RGB_565 then 16 else 32

/-- `getscreenformat_flinger()`, lines 66-100, with the platform function
`android::bitsPerPixel` as the parameter `bitsPerPixel`. -/
def getscreenformat_flinger (screenshotClient : ScreenshotClient)
    (bitsPerPixel : Nat → Nat) : screenFormat :=
  let f := screenshotClient.format
  if f = PIXEL_FORMAT_RGB_565 then
    { width := screenshotClient.width, height := screenshotClient.height,
      size := screenshotClient.size, bitsPerPixel := bitsPerPixel f,
      redShift := 11, redMax := 16, greenShift := 5, greenMax := 10,
      blueShift := 0, blueMax := 4, alphaShift := 0, alphaMax := 0 }
  else
    { width := screenshotClient.width, height := screenshotClient.height,
      size := screenshotClient.size, bitsPerPixel := bitsPerPixel f,
      redShift := 24, redMax := 32, greenShift := 16, greenMax := 23,
      blueShift := 8, blueMax := 15, alphaShift := 0, alphaMax := 7 }

/-! ## Start-up sequence of `main` -/

/-- The calls `main` makes between the argument loop and the end of `newVncServer`. -/
inductive Event where
  /-- Call of the `init` function of a backend. -/
  | init (m : method_type)
  /-- Call of `initInput()`. -/
  | initInput
  /-- Call of `newVncServer(argc, argv)`. -/
  | newVncServer
  deriving DecidableEq, Repr

/-- Lines 357-460 of `main`: the argument loop, `initGrabberMethod()`, `initInput()` and
`newVncServer(argc, argv)`.  `sf` is the value the backend `init` calls leave in the global
`screenformat`.  The result is the sequence of calls made and either the abort that ended
the run or the variables and the screen at line 460. -/
def mainStartup (env : Env) (sf : screenFormat) (argv : List CStr) :
    List Event × Except Abort (Globals × rfbScreenInfo) :=
  match parseArgs env argv initialGlobals with
  | Except.error e => ([], Except.error e)
  | Except.ok g =>
    let sel := initGrabberMethod env g.method
    let g1 := { g with method := sel.1 }
    let calls := sel.2.map Event.init ++ [Event.initInput, Event.newVncServer]
    match newVncServer env g1 sf with
    | Except.error e => (calls, Except.error e)
    | Except.ok vncscr => (calls, Except.ok (g1, vncscr))

/-- The values `i` takes at the loop test `i < argc`, in order: the flag positions of a
run of `argLoop`. -/
def flagPositions (env : Env) (argv : List CStr) : Nat → Nat → Globals → List Nat
  | fuel, i, g =>
    if i < argv.length then
      match fuel with
      | 0 => [i]
      | n + 1 =>
        match argStep env argv i g with
        | Except.error _ => [i]
        | Except.ok (j, g1) => i :: flagPositions env argv n j g1
    else [i]

/-- The letters the `switch` of the argument loop has a `case` for. -/
def knownFlags : List Char := ['h', 'd', 'p', 'f', 'z', 'P', 'r', 's', 'R', 'i', 'm']

/-- Command line as the list of C strings `argv[0..argc-1]`. -/
def cmdline (args : List String) : List CStr := args.map String.toList

/-- An environment in which every allocation succeeds and every backend initialises. -/
def okEnv : Env where
  mallocOk := true
  initFlinger := 0
  initGralloc := 0
  initFB := 0
  initADB := 0
  callocOk := true
  rfbGetScreenOk := true

/-! ## Specification-side definitions -/

/-- The number written by a string of decimal digits, most significant digit first. -/
def decimalValue (ds : CStr) : Nat :=
  Nat.ofDigits 10 (ds.reverse.map (fun c => c.toNat - 48))

/-- The text of a decimal integer: an optional minus sign and its digits. -/
def decimalText (neg : Bool) (ds : CStr) : CStr := if neg then '-' :: ds else ds

/-- The integer written by `decimalText neg ds`. -/
def decimalInt (neg : Bool) (ds : CStr) : Int :=
  if neg then -(decimalValue ds : Int) else decimalValue ds

/-- The port the specification assigns to the written port `p` of `-R host:p`:
`-p` for negative `p`, `5500 + p` for `0 ≤ p < 20`, and `p` from 20 on. -/
def claimedPort (p : Int) : Int :=
  if p < 0 then -p else if p < 20 then 5500 + p else p

/-- The scaling the specification assigns to the value `r` of `-s`. -/
def claimedScaling (r : Int) : Int := if 1 ≤ r ∧ r ≤ 150 then r else 100

/-- The rotation the specification assigns to the value `r` of `-r` when the rotation was
`old`. -/
def claimedRotation (old : Nat) (r : Int) : Int :=
  if r = 0 ∨ r = 90 ∨ r = 180 ∨ r = 270 then r else old

/-- An environment in which FLINGER, GRALLOC and FB fail to initialise and ADB would
initialise. -/
def onlyAdbEnv : Env where
  mallocOk := true
  initFlinger := -1
  initGralloc := -1
  initFB := -1
  initADB := 0
  callocOk := true
  rfbGetScreenOk := true

/-- An environment in which the framebuffer backend fails to initialise. -/
def fbFailEnv : Env where
  mallocOk := true
  initFlinger := 0
  initGralloc := 0
  initFB := -1
  initADB := 0
  callocOk := true
  rfbGetScreenOk := true

/-- A 10x4 backend format at 32 bits per pixel with 8-bit channels. -/
def format10x4 : screenFormat where
  width := 10
  height := 4
  bitsPerPixel := 32
  redMax := 8
  greenMax := 8
  blueMax := 8
  alphaMax := 8
  redShift := 16
  greenShift := 8
  blueShift := 0
  alphaShift := 24
  size := 160

/-! ## `initVncServer`, `rotate` and the connection stage of `main` -/

/-- Conversion of an `int` to `uint32_t` (reduction modulo `2^32`). -/
def toU32 (z : Int) : Nat := (z % 4294967296).toNat

/-- Modelled from the spec: `mark_rectangle_modified(Screen, x, y, w, h)`, the call
`rfbMarkRectAsModified(screen, x1, y1, x2, y2)` of the protocol server, which is not among
the sources: the rectangle is recorded on the screen after those marked before. -/
def rfbMarkRectAsModified (screen : rfbScreenInfo) (x1 y1 x2 y2 : Int) : rfbScreenInfo :=
  { screen with modified := screen.modified ++ [(x1, y1, x2, y2)] }

/-- `initVncServer()`, lines 201-222: after `rfbInitServer`, `update_screen` is set to the
comparator for 32, 16 or 8 bits per pixel, any other depth ends the run through
`close_app_with_status(-1)`, and the whole screen is marked as modified.  The result is the
screen and the depth whose `update_screen` was selected. -/
def initVncServer (vncscr : rfbScreenInfo) : Except Abort (rfbScreenInfo × Nat) :=
  if vncscr.serverFormat.bitsPerPixel = 32 then
    Except.ok (rfbMarkRectAsModified vncscr 0 0 vncscr.width vncscr.height, 32)
  else if vncscr.serverFormat.bitsPerPixel = 16 then
    Except.ok (rfbMarkRectAsModified vncscr 0 0 vncscr.width vncscr.height, 16)
  else if vncscr.serverFormat.bitsPerPixel = 8 then
    Except.ok (rfbMarkRectAsModified vncscr 0 0 vncscr.width vncscr.height, 8)
  else Except.error (Abort.exit (-1))

/-- The condition of the first `if` of `rotate`: `value` is -1 or changes the orientation
class of `rotation`. -/
def rotateSwaps (value : Int) (rotation : Nat) : Prop :=
  value = -1 ∨
  ((value = 90 ∨ value = 270) ∧ (rotation = 0 ∨ rotation = 180)) ∨
  ((value = 0 ∨ value = 180) ∧ (rotation = 90 ∨ rotation = 270))

instance (value : Int) (rotation : Nat) : Decidable (rotateSwaps value rotation) := by
  unfold rotateSwaps
  infer_instance

/-- `rotate(value)`, lines 226-256, on the variables `g`, the screen `vncscr` and the global
`screenformat` (`sf`): when `rotateSwaps` holds the width and height of the screen are
exchanged and every client gets `newFBSizePending = 1`; `rotation` advances by 90 modulo 360
for `value == -1` and becomes `value` otherwise; the whole screen is marked as modified. -/
def rotate (sf : screenFormat) (value : Int) (g : Globals) (vncscr : rfbScreenInfo) :
    Globals × rfbScreenInfo :=
  ({ g with rotation :=
      if value = -1 then toU16 (toU16 ((g.rotation : Int) + 90) % 360) else toU16 value },
   if rotateSwaps value g.rotation then
     rfbMarkRectAsModified
       { vncscr with
         width := vncscr.height
         paddedWidthInBytes := Int.tdiv (wrapInt32 (vncscr.height * sf.bitsPerPixel)) 8
         height := vncscr.width
         clientHead := vncscr.clientHead.map (fun cl => { cl with newFBSizePending := true }) }
       0 0 vncscr.height vncscr.width
   else rfbMarkRectAsModified vncscr 0 0 vncscr.width vncscr.height)

/-- What the network answers to the connection stage of `main`. -/
structure NetEnv where
  /-- Return value of `rfbConnect(vncscr, rhost, rport)`: a socket, or a negative number. -/
  rfbConnect : Int
  /-- The bytes that follow the array `repeaterId` in memory. -/
  afterRepeaterId : List Char
  /-- Return value of `write(sock, repeaterId, 250)`. -/
  write : Int
  /-- Whether `rfbNewClient` returns a non-null client. -/
  rfbNewClientOk : Bool
  /-- Whether `rfbReverseConnection` returns a non-null client. -/
  rfbReverseConnectionOk : Bool
  deriving DecidableEq, Repr

/-- The state `main` works on from line 461: the file-scope variables, the screen, the depth
of the selected `update_screen`, the number of calls of `update_screen` made (each call
reads one frame from the backend and compares it), the buffers handed to `write`, and the
number of calls of `rfbShutdownServer`. -/
structure LoopState where
  g : Globals
  vncscr : rfbScreenInfo
  depth : Nat
  captures : Nat
  written : List (List Char)
  shutdowns : Nat
  deriving DecidableEq, Repr

/-- The state at line 461, after `newVncServer`: nothing captured, nothing written. -/
def loopStart (g : Globals) (vncscr : rfbScreenInfo) (depth : Nat) : LoopState where
  g := g
  vncscr := vncscr
  depth := depth
  captures := 0
  written := []
  shutdowns := 0

/-- The buffer `write(sock, repeaterId, 250)` sends: 250 bytes starting at `repeaterId`,
that is the 127 bytes of the array and the bytes that follow it in memory.  The local
`repbuf`, zero-filled and holding a copy of the ID, is not the one handed to `write`. -/
def repeaterPayload (net : NetEnv) (g : Globals) : List Char :=
  (g.repeaterId ++ net.afterRepeaterId).take 250

/-- Lines 463-507 of `main`: with a non-empty `repeaterId` the repeater is contacted and
the ID sent, a failed connection or a short write ending the run through
`close_app_with_status(3)`; otherwise, with `rhost` set, a reverse connection is tried and
a failure only logged; then `running = 1`. -/
def connectStage (net : NetEnv) (s : LoopState) : Except Abort LoopState :=
  if s.g.repeaterId.head? ≠ some NUL ∧ s.g.repeaterId ≠ [] then
    if net.rfbConnect < 0 then Except.error (Abort.exit 3)
    else if net.write ≠ 250 then Except.error (Abort.exit 3)
    else if net.rfbNewClientOk = false then Except.error Abort.nullDeref
    else
      Except.ok { s with
        written := s.written ++ [repeaterPayload net s.g]
        vncscr := { s.vncscr with
          clientHead := s.vncscr.clientHead ++ [{ newFBSizePending := false, onHold := false }] }
        g := { s.g with running := 1 } }
  else if s.g.rhost ≠ none then
    if net.rfbReverseConnectionOk = false then
      Except.ok { s with g := { s.g with running := 1 } }
    else
      Except.ok { s with
        vncscr := { s.vncscr with
          clientHead := s.vncscr.clientHead ++ [{ newFBSizePending := false, onHold := false }] }
        g := { s.g with running := 1 } }
  else Except.ok { s with g := { s.g with running := 1 } }

/-- Lines 357-507 of `main`: start-up, `initVncServer()` and the connection stage.  The
result is the state in which the publication loop is entered, or the abort that ended the
run before it. -/
def mainEntry (env : Env) (net : NetEnv) (sf : screenFormat) (argv : List CStr) :
    Except Abort LoopState :=
  match (mainStartup env sf argv).2 with
  | Except.error e => Except.error e
  | Except.ok (g, vncscr) =>
    match initVncServer vncscr with
    | Except.error e => Except.error e
    | Except.ok (vncscr1, depth) => connectStage net (loopStart g vncscr1 depth)

/-! ## The publication loop -/

/-- What happens inside one call of `rfbProcessEvents` and, when the loop goes on to it, of
`update_screen` (`updateScreen.c`, not among the sources). -/
structure Events where
  /-- The client roster `vncscr->clientHead` when `rfbProcessEvents` returns. -/
  clients : List rfbClientRec
  /-- Whether a client left, so that the hook `clientGone` ran. -/
  gone : Bool
  /-- The argument of the last call of `setIdle` made by an input hook, if any. -/
  setIdle : Option Int
  /-- The value `update_screen` leaves in `idle`. -/
  idleAfterUpdate : Nat
  /-- The rectangles `update_screen` marks as modified. -/
  dirty : List (Int × Int × Int × Int)
  deriving DecidableEq, Repr

/-- `setIdle(i)`, lines 86-89. -/
def setIdle (i : Int) (g : Globals) : Globals := { g with idle := toU32 i }

/-- `clientGone(cl)`, lines 91-98: `running = 0` and `rfbShutdownServer(cl->screen, TRUE)`. -/
def clientGone (s : LoopState) : LoopState :=
  { s with g := { s.g with running := 0 }, shutdowns := s.shutdowns + 1 }

/-- The call `rfbProcessEvents(vncscr, usec)` of line 513, seen from `droidvncserver.c`:
the roster becomes what the protocol server reports, an input hook may call `setIdle`, and
`clientGone` runs when a client left. -/
def rfbProcessEvents (ev : Events) (s : LoopState) : LoopState :=
  if ev.gone = true then
    clientGone { s with
      vncscr := { s.vncscr with clientHead := ev.clients }
      g := match ev.setIdle with
        | some i => setIdle i s.g
        | none => s.g }
  else
    { s with
      vncscr := { s.vncscr with clientHead := ev.clients }
      g := match ev.setIdle with
        | some i => setIdle i s.g
        | none => s.g }

/-- The statement `if (idle) standby+=2; else standby=2;` of lines 515-518, on `uint32_t`. -/
def pace (g : Globals) : Globals :=
  if g.idle ≠ 0 then { g with standby := (g.standby + 2) % 4294967296 }
  else { g with standby := 2 }

/-- Modelled from the spec: one call of `update_screen` (`updateScreen.c`, not among the
sources): a frame is read from the backend and compared, the rectangles found are marked as
modified, and `idle` is left as the comparison decides. -/
def update_screen (ev : Events) (s : LoopState) : LoopState :=
  { s with
    captures := s.captures + 1
    g := { s.g with idle := ev.idleAfterUpdate }
    vncscr := { s.vncscr with modified := s.vncscr.modified ++ ev.dirty } }

/-- The part of the loop body after `rfbProcessEvents` (lines 515-527), on the state `s`
that call left: the pacing statement, then either the branch of the empty roster or the
call of `update_screen`. -/
def afterEvents (ev : Events) (s : LoopState) : LoopState :=
  if s.vncscr.clientHead = [] then
    { s with g := { pace s.g with idle := 1, standby := 50 } }
  else update_screen ev { s with g := pace s.g }

/-- One pass through the body of `while (running)`, lines 511-527.  The time budget
`usec` handed to `rfbProcessEvents` has no effect on the variables and is left out. -/
def loopIteration (ev : Events) (s : LoopState) : LoopState :=
  afterEvents ev (rfbProcessEvents ev s)

/-- The loop `while (running)` of lines 509-530, run on the events of its successive
passes; it ends when `running` is 0 or the events are used up. -/
def publicationLoop : List Events → LoopState → LoopState
  | [], s => s
  | ev :: rest, s =>
    if s.g.running ≠ 0 then publicationLoop rest (loopIteration ev s) else s

/-- The states after each pass of the loop, in order. -/
def loopTrace : List Events → LoopState → List LoopState
  | [], _ => []
  | ev :: rest, s =>
    if s.g.running ≠ 0 then loopIteration ev s :: loopTrace rest (loopIteration ev s)
    else []

/-- The events of a pass in which no client is connected and nothing else happens. -/
def noClient : Events where
  clients := []
  gone := false
  setIdle := none
  idleAfterUpdate := 0
  dirty := []

/-- The state in which `main` enters the loop when no flag is given and the screen is
`vncscr`: the initial values `idle = 0` and `standby = 1`, and `running = 1`. -/
def entryState (vncscr : rfbScreenInfo) (depth : Nat) : LoopState :=
  loopStart { initialGlobals with running := 1 } vncscr depth

/-! ## Capture orientation of the modern FLINGER backend -/

/-- The platform type `ISurfaceComposer::Rotation`. -/
inductive Rotation where
  | eRotateNone | eRotate90 | eRotate180 | eRotate270
  deriving DecidableEq, Repr

/-- The table `ORIENTATION_MAP`, lines 41-46, indexed by the `orientation` of a
`DisplayInfo`, which is one of `DISPLAY_ORIENTATION_0`, `_90`, `_180`, `_270` (0 to 3). -/
def ORIENTATION_MAP (displayOrientation : Fin 4) : Rotation :=
  match displayOrientation with
  | 0 => Rotation.eRotateNone
  | 1 => Rotation.eRotate270
  | 2 => Rotation.eRotate180
  | 3 => Rotation.eRotate90

/-- What the platform answers to the calls of `init_flinger`. -/
structure FlingerEnv where
  /-- Whether `getBuiltInDisplay` returns a display handle. -/
  displayOk : Bool
  /-- The `orientation` of each entry of `configs` after `getDisplayConfigs`. -/
  configs : List (Fin 4)
  /-- Return value of `getActiveConfig(display)`. -/
  activeConfig : Int
  /-- Return value of the `update` call of `init_flinger`, 0 being `NO_ERROR`. -/
  updateResult : Int
  /-- Whether `getPixels()` is non-null after that call. -/
  pixelsOk : Bool
  deriving DecidableEq, Repr

/-- The file-scope variable `captureOrientation` of `flinger.cpp` and the rotation
argument of each `screenshotClient->update` call made, oldest first. -/
structure FlingerState where
  captureOrientation : Rotation
  updates : List Rotation
  deriving DecidableEq, Repr

/-- The initial value of the file-scope state of `flinger.cpp`: line 48 initialises
`captureOrientation` to `eRotateNone`. -/
def flingerInitial : FlingerState where
  captureOrientation := Rotation.eRotateNone
  updates := []

/-- `init_flinger()`, lines 102-132.  The `captureOrientation` it computes from
`ORIENTATION_MAP` is the local variable declared at line 123, which hides the file-scope
one; the file-scope variable is not written.  The result is the return value and the state
left. -/
def init_flinger (env : FlingerEnv) (st : FlingerState) : Int × FlingerState :=
  if env.displayOk = false then (-1, st)
  else if env.activeConfig < 0 ∨ (env.configs.length : Int) ≤ env.activeConfig then (-1, st)
  else
    match env.configs[env.activeConfig.toNat]? with
    | none => (-1, st)
    | some displayOrientation =>
      if env.pixelsOk = false then
        (-1, { st with updates := st.updates ++ [ORIENTATION_MAP displayOrientation] })
      else if env.updateResult ≠ 0 then
        (-1, { st with updates := st.updates ++ [ORIENTATION_MAP displayOrientation] })
      else (0, { st with updates := st.updates ++ [ORIENTATION_MAP displayOrientation] })

/-- `readfb_flinger()`, lines 134-138: one `update` call with the file-scope
`captureOrientation`. -/
def readfb_flinger (st : FlingerState) : FlingerState :=
  { st with updates := st.updates ++ [st.captureOrientation] }

/-- The state after `n` calls of `readfb_flinger`. -/
def readfb_flinger_times : Nat → FlingerState → FlingerState
  | 0, st => st
  | n + 1, st => readfb_flinger_times n (readfb_flinger st)

/-! ## Specification-side definitions for the later claims -/

/-- A pixel `(x, y)` lies in one of the rectangles `(x1, y1, x2, y2)` of the list. -/
def covered (rects : List (Int × Int × Int × Int)) (x y : Int) : Prop :=
  ∃ r ∈ rects, r.1 ≤ x ∧ x < r.2.2.1 ∧ r.2.1 ≤ y ∧ y < r.2.2.2

/-- The session-state invariant of the specification: `rotation ∈ {0, 90, 180, 270}` and
`scaling ∈ [1, 150]`. -/
def SessionInv (g : Globals) : Prop :=
  (g.rotation = 0 ∨ g.rotation = 90 ∨ g.rotation = 180 ∨ g.rotation = 270) ∧
  1 ≤ g.scaling ∧ g.scaling ≤ 150

instance (g : Globals) : Decidable (SessionInv g) := by
  unfold SessionInv
  infer_instance

/-- The payload the specification defines for the repeater ID `id`: its bytes followed by
zero bytes up to length 250. -/
def claimedPayload (id : CStr) : List Char := id ++ List.replicate (250 - id.length) NUL

/-- A screen of width 10 and height 4 with one client, as `newVncServer` leaves it for
`format10x4` at rotation 0. -/
def screen10x4 : rfbScreenInfo :=
  { rfbGetScreen 10 4 4 with clientHead := [{ newFBSizePending := false, onHold := false }] }

/-- A network in which the repeater accepts the connection and the write, and the memory
after `repeaterId` holds a non-zero byte followed by zeros. -/
def okNet : NetEnv where
  rfbConnect := 7
  afterRepeaterId := 'x' :: List.replicate 122 NUL
  write := 250
  rfbNewClientOk := true
  rfbReverseConnectionOk := true

/-- A network in which the reverse connection fails. -/
def reverseFailNet : NetEnv where
  rfbConnect := 7
  afterRepeaterId := List.replicate 123 NUL
  write := 250
  rfbNewClientOk := true
  rfbReverseConnectionOk := false

/-- The events of a pass in which one client is connected and nothing changes on screen. -/
def oneClient : Events where
  clients := [{ newFBSizePending := false, onHold := false }]
  gone := false
  setIdle := none
  idleAfterUpdate := 1
  dirty := []

/-- The events of a pass in which the only client leaves. -/
def clientLeaves : Events where
  clients := []
  gone := true
  setIdle := none
  idleAfterUpdate := 0
  dirty := []

/-- A display in orientation 90 degrees (index 1) on which every call of `init_flinger`
succeeds. -/
def display90 : FlingerEnv where
  displayOk := true
  configs := [1]
  activeConfig := 0
  updateResult := 0
  pixelsOk := true

/-! ## Reads of the argument vector -/

/-- The letters whose `case` reads `argv[i]` after its `i++`: every `case` of the `switch`
except `h`, which exits, and `z`, which reads no value. -/
def valueFlags : List Char := ['d', 'p', 'f', 'P', 'r', 's', 'R', 'i', 'm']

/-- The indices of `argv` that one pass of the loop body at index `i` dereferences: `i`
for the tests `*argv[i]` and `*(argv[i] + 1)`, and `i + 1` when the `case` taken reads its
value. -/
def stepReads (argv : List CStr) (i : Nat) : List Nat :=
  match argv[i]? with
  | some cur =>
    if cur.head? = some '-' ∧ cur.getD 1 NUL ∈ valueFlags then [i, i + 1] else [i]
  | none => [i]

/-- The indices of `argv` dereferenced by a run of `argLoop`, in order. -/
def argReads (env : Env) (argv : List CStr) : Nat → Nat → Globals → List Nat
  | fuel, i, g =>
    if i < argv.length then
      match fuel with
      | 0 => []
      | n + 1 =>
        stepReads argv i ++
          match argStep env argv i g with
          | Except.error _ => []
          | Except.ok (j, g1) => argReads env argv n j g1
    else []

/-! ## Lemmas on the string functions -/

theorem wrapInt32_of_range (z : Int) (h1 : -2147483648 ≤ z) (h2 : z < 2147483648) :
    wrapInt32 z = z := by
  unfold wrapInt32
  omega

theorem strrchr_none_of_not_mem (s : CStr) (c : Char) (h : c ∉ s) : strrchr s c = none := by
  induction s with
  | nil => rfl
  | cons x xs ih =>
    have hx : x ≠ c := fun e => h (by simp [e])
    have hxs : c ∉ xs := fun e => h (by simp [e])
    simp [strrchr, ih hxs, hx]

theorem strrchr_append_last (host rest : CStr) (c : Char) (h : c ∉ rest) :
    strrchr (host ++ c :: rest) c = some host.length := by
  induction host with
  | nil => simp [strrchr, strrchr_none_of_not_mem rest c h]
  | cons x xs ih => simp [strrchr, ih]

theorem atoiDigits_eq (ds : CStr) (hdig : ∀ c ∈ ds, isdigit c = true) (acc : Nat) :
    atoiDigits ds acc = acc * 10 ^ ds.length + decimalValue ds := by
  induction ds generalizing acc with
  | nil => simp [atoiDigits, decimalValue]
  | cons c cs ih =>
    have hc : isdigit c = true := hdig c (by simp)
    have hcs : ∀ d ∈ cs, isdigit d = true := fun d hd => hdig d (by simp [hd])
    simp only [atoiDigits, hc, if_true, ih hcs]
    simp only [decimalValue, List.reverse_cons, List.map_append, List.map_cons, List.map_nil,
      Nat.ofDigits_append, Nat.ofDigits_singleton, List.length_map, List.length_reverse,
      List.length_cons]
    ring

theorem isdigit_not_special (c : Char) (h : isdigit c = true) :
    isspace c = false ∧ c ≠ '-' ∧ c ≠ '+' ∧ c ≠ ':' := by
  have h1 : 48 ≤ c.toNat ∧ c.toNat ≤ 57 := by simpa [isdigit] using h
  have key : ∀ d : Char, d.toNat < 48 ∨ 57 < d.toNat → c ≠ d := by
    intro d hd e
    subst e
    omega
  refine ⟨?_, key _ (by decide), key _ (by decide), key _ (by decide)⟩
  simp only [isspace, Bool.or_eq_false_iff, beq_eq_false_iff_ne, ne_eq]
  exact ⟨⟨⟨⟨⟨key _ (by decide), key _ (by decide)⟩, key _ (by decide)⟩, key _ (by decide)⟩,
    key _ (by decide)⟩, key _ (by decide)⟩

theorem atoi_digits (ds : CStr) (hds : ds ≠ []) (hdig : ∀ c ∈ ds, isdigit c = true) :
    atoi ds = wrapInt32 (decimalValue ds) := by
  cases ds with
  | nil => exact absurd rfl hds
  | cons c cs =>
    obtain ⟨hsp, hm, hp, _⟩ := isdigit_not_special c (hdig c (by simp))
    have h := atoiDigits_eq (c :: cs) hdig 0
    unfold atoi
    simp only [List.dropWhile, hsp]
    split
    · rename_i heq
      exact absurd (List.cons.inj heq).1 hm
    · rename_i heq
      exact absurd (List.cons.inj heq).1 hp
    · rw [h]; simp

theorem atoi_neg_digits (ds : CStr) (hdig : ∀ c ∈ ds, isdigit c = true) :
    atoi ('-' :: ds) = wrapInt32 (-(decimalValue ds : Int)) := by
  have h := atoiDigits_eq ds hdig 0
  have hsp : isspace '-' = false := by decide
  unfold atoi
  simp only [List.dropWhile, hsp]
  rw [h]; simp

theorem atoi_decimalText (neg : Bool) (ds : CStr) (hds : ds ≠ [])
    (hdig : ∀ c ∈ ds, isdigit c = true) :
    atoi (decimalText neg ds) = wrapInt32 (decimalInt neg ds) := by
  cases neg with
  | true => simpa [decimalText, decimalInt] using atoi_neg_digits ds hdig
  | false => simpa [decimalText, decimalInt] using atoi_digits ds hds hdig

theorem colon_not_mem_decimalText (neg : Bool) (ds : CStr)
    (hdig : ∀ c ∈ ds, isdigit c = true) : ':' ∉ decimalText neg ds := by
  have hd : ':' ∉ ds := fun hmem => (isdigit_not_special _ (hdig _ hmem)).2.2.2 rfl
  cases neg with
  | true =>
    simp only [decimalText, if_true, List.mem_cons, not_or]
    exact ⟨by decide, hd⟩
  | false => simpa [decimalText] using hd

/-! ## Lemmas on the argument loop -/

theorem flagSwitch_unknown (env : Env) (c : Char) (next : Option CStr) (i : Nat) (g : Globals)
    (hx : c ∉ knownFlags) :
    flagSwitch env c next i g = Except.ok (i + 1, g) := by
  simp only [knownFlags, List.mem_cons, List.mem_singleton, not_or, List.mem_nil_iff,
    not_false_eq_true, and_true] at hx
  obtain ⟨h1, h2, h3, h4, h5, h6, h7, h8, h9, h10, h11⟩ := hx
  unfold flagSwitch
  rw [if_neg h1, if_neg h2, if_neg h3, if_neg h4, if_neg h5, if_neg h6, if_neg h7, if_neg h8,
    if_neg h9, if_neg h10, if_neg h11]

theorem flagSwitch_known (env : Env) (c : Char) (next : Option CStr) (g : Globals)
    (hx : c ∈ knownFlags) (k : Nat) :
    flagSwitch env c next k g
      = ((flagSwitch env c next 0 g).map Prod.snd).map (fun g1 => (k + 2, g1)) := by
  simp only [knownFlags, List.mem_cons, List.mem_singleton, List.mem_nil_iff, or_false] at hx
  unfold flagSwitch
  rcases hx with h | h | h | h | h | h | h | h | h | h | h <;> subst h <;>
    simp only [Char.reduceEq, if_true, if_false] <;> first
    | rfl
    | (cases flagValue next <;> simp only [Except.map] <;> done)
    | (cases flagValue next <;> simp only [Except.map]; split <;> rfl)
    | (cases flagValue next <;> simp only [Except.map]; split_ifs <;> rfl)

/-- A pass of the loop body either steps over one argument and changes nothing that depends
on the following argument, or is the pass of a flag with a `case`, whose outcome does not
depend on the index. -/
theorem argBody_view (env : Env) (cur : CStr) (next : Option CStr) (g : Globals) :
    (∀ (k : Nat) (nx : Option CStr), argBody env cur nx k g = Except.ok (k + 1, g)) ∨
    (∃ r : Except Abort Globals,
      ∀ k : Nat, argBody env cur next k g = r.map (fun g1 => (k + 2, g1))) := by
  unfold argBody
  by_cases hd : cur.head? = some '-'
  · by_cases hk : cur.getD 1 NUL ∈ knownFlags
    · right
      refine ⟨(flagSwitch env (cur.getD 1 NUL) next 0 g).map Prod.snd, fun k => ?_⟩
      rw [if_pos hd]
      exact flagSwitch_known env _ next g hk k
    · left
      intro k nx
      rw [if_pos hd]
      exact flagSwitch_unknown env _ nx k g hk
  · left
    intro k nx
    rw [if_neg hd]

theorem argBody_index (env : Env) (cur : CStr) (next : Option CStr) (i j : Nat)
    (g g1 : Globals) (h : argBody env cur next i g = Except.ok (j, g1)) :
    j = i + 1 ∨ j = i + 2 := by
  rcases argBody_view env cur next g with hv | ⟨r, hr⟩
  · rw [hv i next] at h
    cases h
    exact Or.inl rfl
  · rw [hr i] at h
    cases r with
    | error e => cases h
    | ok g2 =>
      cases h
      exact Or.inr rfl

theorem argBody_shift (env : Env) (cur : CStr) (next : Option CStr) (i k : Nat) (g : Globals) :
    argBody env cur next (i + k) g
      = (argBody env cur next i g).map (fun r => (r.1 + k, r.2)) := by
  rcases argBody_view env cur next g with hv | ⟨r, hr⟩
  · rw [hv (i + k) next, hv i next]
    simp only [Except.map]
    congr 2
    omega
  · rw [hr (i + k), hr i]
    cases r with
    | error e => rfl
    | ok g2 =>
      simp only [Except.map]
      congr 2
      omega

theorem argBody_single (env : Env) (cur : CStr) (next next1 : Option CStr) (i k : Nat)
    (g g1 : Globals) (h : argBody env cur next i g = Except.ok (i + 1, g1)) :
    argBody env cur next1 k g = Except.ok (k + 1, g1) := by
  rcases argBody_view env cur next g with hv | ⟨r, hr⟩
  · rw [hv i next] at h
    cases h
    exact hv k next1
  · rw [hr i] at h
    cases r with
    | error e => cases h
    | ok g2 =>
      have := (Prod.mk.inj (Except.ok.inj h)).1
      omega

theorem getElem?_insert_after (pre post : List CStr) (x : CStr) (i : Nat)
    (h : pre.length ≤ i) : (pre ++ x :: post)[i + 1]? = (pre ++ post)[i]? := by
  rw [List.getElem?_append_right (by omega), List.getElem?_append_right h]
  have : i + 1 - pre.length = (i - pre.length) + 1 := by omega
  rw [this, List.getElem?_cons_succ]

theorem getElem?_insert_before (pre post : List CStr) (x : CStr) (i : Nat)
    (h : i < pre.length) : (pre ++ x :: post)[i]? = (pre ++ post)[i]? := by
  rw [List.getElem?_append_left h, List.getElem?_append_left h]

theorem argStep_shift (env : Env) (pre post : List CStr) (x : CStr) (i : Nat) (g : Globals)
    (h : pre.length ≤ i) :
    argStep env (pre ++ x :: post) (i + 1) g
      = (argStep env (pre ++ post) i g).map (fun r => (r.1 + 1, r.2)) := by
  unfold argStep
  rw [getElem?_insert_after pre post x i h, getElem?_insert_after pre post x (i + 1) (by omega)]
  cases (pre ++ post)[i]? with
  | none => rfl
  | some cur => exact argBody_shift env cur _ i 1 g

theorem argLoop_shift (env : Env) (pre post : List CStr) (x : CStr) (fuel : Nat) :
    ∀ (i : Nat) (g : Globals), pre.length ≤ i →
      argLoop env (pre ++ x :: post) fuel (i + 1) g = argLoop env (pre ++ post) fuel i g := by
  induction fuel with
  | zero =>
    intro i g _
    unfold argLoop
    simp only [List.length_append, List.length_cons]
    by_cases hi : i < pre.length + post.length
    · rw [if_pos hi, if_pos (by omega)]
    · rw [if_neg hi, if_neg (by omega)]
  | succ n ih =>
    intro i g h
    rw [argLoop, argLoop]
    simp only [List.length_append, List.length_cons]
    by_cases hi : i < pre.length + post.length
    · rw [if_pos hi, if_pos (by omega), argStep_shift env pre post x i g h]
      cases hs : argStep env (pre ++ post) i g with
      | error e => rfl
      | ok r =>
        obtain ⟨j, g1⟩ := r
        simp only [Except.map]
        have hj : i < j := by
          unfold argStep at hs
          cases hc : (pre ++ post)[i]? with
          | none => rw [hc] at hs; cases hs
          | some cur =>
            rw [hc] at hs
            rcases argBody_index env cur _ i j g g1 hs with e | e <;> omega
        exact ih j g1 (by omega)
    · rw [if_neg hi, if_neg (by omega)]

theorem argStep_index (env : Env) (argv : List CStr) (i j : Nat) (g g1 : Globals)
    (h : argStep env argv i g = Except.ok (j, g1)) : j = i + 1 ∨ j = i + 2 := by
  unfold argStep at h
  cases hc : argv[i]? with
  | none => rw [hc] at h; cases h
  | some cur =>
    rw [hc] at h
    exact argBody_index env cur _ i j g g1 h

theorem flagPositions_ge (env : Env) (argv : List CStr) (fuel : Nat) :
    ∀ (i : Nat) (g : Globals) (m : Nat), m ∈ flagPositions env argv fuel i g → i ≤ m := by
  induction fuel with
  | zero =>
    intro i g m hm
    unfold flagPositions at hm
    split at hm <;> simp only [List.mem_singleton] at hm <;> omega
  | succ n ih =>
    intro i g m hm
    rw [flagPositions] at hm
    by_cases hi : i < argv.length
    · rw [if_pos hi] at hm
      cases hs : argStep env argv i g with
      | error e =>
        rw [hs] at hm
        simp only [List.mem_singleton] at hm
        omega
      | ok r =>
        obtain ⟨j, g1⟩ := r
        rw [hs] at hm
        simp only [List.mem_cons] at hm
        rcases hm with e | hm
        · omega
        · have := ih j g1 m hm
          rcases argStep_index env argv i j g g1 hs with e | e <;> omega
    · rw [if_neg hi] at hm
      simp only [List.mem_singleton] at hm
      omega

theorem argStep_at_unknown (env : Env) (pre post : List CStr) (x : CStr) (g : Globals)
    (hx : x.getD 1 NUL ∉ knownFlags) :
    argStep env (pre ++ x :: post) pre.length g = Except.ok (pre.length + 1, g) := by
  unfold argStep
  rw [List.getElem?_append_right (le_refl _)]
  simp only [Nat.sub_self, List.getElem?_cons_zero]
  unfold argBody
  split
  · exact flagSwitch_unknown env _ _ _ g hx
  · rfl

theorem argStep_before (env : Env) (pre post : List CStr) (x : CStr) (i j : Nat)
    (g g1 : Globals) (hj : j ≤ pre.length)
    (h : argStep env (pre ++ post) i g = Except.ok (j, g1)) :
    argStep env (pre ++ x :: post) i g = Except.ok (j, g1) := by
  have hij := argStep_index env _ i j g g1 h
  have hi : i < pre.length := by omega
  unfold argStep at h ⊢
  rw [getElem?_insert_before pre post x i hi]
  cases hc : (pre ++ post)[i]? with
  | none => rw [hc] at h; cases h
  | some cur =>
    rw [hc] at h
    simp only []
    by_cases h1 : i + 1 < pre.length
    · rw [getElem?_insert_before pre post x (i + 1) h1]
      exact h
    · have hj1 : j = i + 1 := by omega
      subst hj1
      exact argBody_single env cur _ _ i i g g1 h

theorem argLoop_insert (env : Env) (pre post : List CStr) (x : CStr)
    (hx : x.getD 1 NUL ∉ knownFlags) (fuel : Nat) :
    ∀ (i : Nat) (g : Globals), i ≤ pre.length →
      pre.length ∈ flagPositions env (pre ++ post) fuel i g →
      argLoop env (pre ++ x :: post) (fuel + 1) i g = argLoop env (pre ++ post) fuel i g := by
  have hat : ∀ (n : Nat) (g : Globals),
      argLoop env (pre ++ x :: post) (n + 1) pre.length g
        = argLoop env (pre ++ post) n pre.length g := by
    intro n g
    rw [argLoop, if_pos (by simp), argStep_at_unknown env pre post x g hx]
    exact argLoop_shift env pre post x n pre.length g (le_refl _)
  induction fuel with
  | zero =>
    intro i g hi hm
    have : pre.length = i := by
      unfold flagPositions at hm
      split at hm <;> simpa using hm
    subst this
    exact hat 0 g
  | succ n ih =>
    intro i g hi hm
    by_cases hik : i = pre.length
    · subst hik
      exact hat (n + 1) g
    · have hlt : i < pre.length := by omega
      have hlen : i < (pre ++ post).length := by
        simp only [List.length_append]; omega
      rw [flagPositions, if_pos hlen] at hm
      cases hs : argStep env (pre ++ post) i g with
      | error e =>
        rw [hs] at hm
        simp only [List.mem_singleton] at hm
        omega
      | ok r =>
        obtain ⟨j, g1⟩ := r
        rw [hs] at hm
        simp only [List.mem_cons] at hm
        rcases hm with e | hm
        · omega
        · have hj : j ≤ pre.length := flagPositions_ge env _ n j g1 _ hm
          have hs1 := argStep_before env pre post x i j g g1 hj hs
          have hlen1 : i < (pre ++ x :: post).length := by
            simp only [List.length_append, List.length_cons]; omega
          rw [argLoop, if_pos hlen1, hs1]
          conv_rhs => rw [argLoop, if_pos hlen, hs]
          exact ih j g1 hj hm


theorem extractReverseHostPort_ne_fuel (env : Env) (v : CStr) (g : Globals) :
    extractReverseHostPort env v g ≠ Except.error Abort.fuel := by
  unfold extractReverseHostPort
  intro h
  split at h
  · cases h
  · split at h <;> cases h

theorem flagSwitch_ne_fuel (env : Env) (c : Char) (next : Option CStr) (i : Nat)
    (g : Globals) : flagSwitch env c next i g ≠ Except.error Abort.fuel := by
  by_cases hk : c ∈ knownFlags
  · have hR := extractReverseHostPort_ne_fuel env
    simp only [knownFlags, List.mem_cons, List.mem_singleton, List.mem_nil_iff, or_false] at hk
    unfold flagSwitch
    intro hf
    rcases hk with h | h | h | h | h | h | h | h | h | h | h <;> subst h <;>
      simp only [Char.reduceEq, if_true, if_false] at hf <;>
      cases next <;> (try simp only [flagValue] at hf) <;> first
      | cases hf
      | (split at hf <;> cases hf; done)
      | split_ifs at hf
      | (split at hf
         · rename_i e he
           exact hR _ g (he.trans (congrArg Except.error (Except.error.inj hf)))
         · cases hf)
  · rw [flagSwitch_unknown env c next i g hk]
    intro h
    cases h

theorem argStep_ne_fuel (env : Env) (argv : List CStr) (i : Nat) (g : Globals) :
    argStep env argv i g ≠ Except.error Abort.fuel := by
  unfold argStep
  cases argv[i]? with
  | none => intro h; cases h
  | some cur =>
    simp only []
    unfold argBody
    split
    · exact flagSwitch_ne_fuel env _ _ i g
    · intro h; cases h

/-- The argument loop never exhausts the iteration bound `argc` of `parseArgs`: every pass
advances `i`. -/
theorem argLoop_fuel (env : Env) (argv : List CStr) (fuel : Nat) :
    ∀ (i : Nat) (g : Globals), argv.length ≤ i + fuel →
      argLoop env argv fuel i g ≠ Except.error Abort.fuel := by
  induction fuel with
  | zero =>
    intro i g h
    rw [argLoop, if_neg (by omega)]
    intro hf; cases hf
  | succ n ih =>
    intro i g h
    rw [argLoop]
    split
    · cases hs : argStep env argv i g with
      | error e =>
        simp only []
        intro hf
        exact argStep_ne_fuel env argv i g (by rw [hs, ← Except.error.inj hf])
      | ok r =>
        obtain ⟨j, g1⟩ := r
        simp only []
        have := argStep_index env argv i j g g1 hs
        exact ih j g1 (by omega)
    · intro hf; cases hf

theorem parseArgs_fuel (env : Env) (argv : List CStr) (g : Globals) :
    parseArgs env argv g ≠ Except.error Abort.fuel :=
  argLoop_fuel env argv argv.length 1 g (by omega)

/-! ## C1: `extractReverseHostPort` -/

/-- C1 (as stated, refuted): for the argument `host:-2147483648` the written port is
`p = -2147483648`, the claim asks for the port `-p = 2147483648`, which no `int` holds;
`rport` is still `-2147483648` after the negation. -/
theorem extractReverseHostPort_int_min_counterexample :
    decimalInt true "2147483648".toList = -2147483648 ∧
    claimedPort (-2147483648) = 2147483648 ∧
    (extractReverseHostPort okEnv ("host".toList ++ ':' :: decimalText true "2147483648".toList)
        initialGlobals).map (fun g => (g.rhost, g.rport))
      = Except.ok (some "host".toList, -2147483648) ∧
    (-2147483648 : Int) ≠ claimedPort (decimalInt true "2147483648".toList) := by
  decide

/-- C1 (amended): for every argument `host:p` where `p` is a decimal integer with
`-2^31 < p < 2^31` (an optional minus sign and a non-empty run of digits), if the
allocation succeeds then `extractReverseHostPort` sets `rhost` to the text before the colon
and `rport` to `-p` when `p < 0`, to `5500 + p` when `0 ≤ p < 20` and to `p` when `p ≥ 20`,
leaving every other variable as it was. -/
theorem extractReverseHostPort_port (env : Env) (g : Globals) (host ds : CStr) (neg : Bool)
    (hmalloc : env.mallocOk = true) (hds : ds ≠ [])
    (hdig : ∀ c ∈ ds, isdigit c = true) (hrange : decimalValue ds < 2147483648) :
    extractReverseHostPort env (host ++ ':' :: decimalText neg ds) g =
      Except.ok { g with rhost := some host, rport := claimedPort (decimalInt neg ds) } := by
  have hcolon := strrchr_append_last host (decimalText neg ds) ':'
    (colon_not_mem_decimalText neg ds hdig)
  have hatoi := atoi_decimalText neg ds hds hdig
  have hlo : -2147483648 < decimalInt neg ds := by
    unfold decimalInt; split <;> omega
  have hhi : decimalInt neg ds < 2147483648 := by
    unfold decimalInt; split <;> omega
  rw [wrapInt32_of_range _ (le_of_lt hlo) hhi] at hatoi
  have hdrop : (host ++ ':' :: decimalText neg ds).drop (host.length + 1)
      = decimalText neg ds := by
    induction host with
    | nil => rfl
    | cons x xs ih => simp
  have htake : (host ++ ':' :: decimalText neg ds).take host.length = host := by
    induction host with
    | nil => rfl
    | cons x xs ih => simp
  unfold extractReverseHostPort
  simp only [hmalloc, hcolon, Bool.true_eq_false, if_false, hdrop, htake, hatoi]
  unfold claimedPort
  by_cases h1 : decimalInt neg ds < 0
  · simp only [h1, if_true]
    rw [wrapInt32_of_range _ (by omega) (by omega)]
  · by_cases h2 : decimalInt neg ds < 20
    · simp only [h1, h2, if_true, if_false]
      rw [wrapInt32_of_range _ (by omega) (by omega)]
    · simp only [h1, h2, if_false]

/-- C1 (witness): `host:3` gives port 5503 and `host:-22` gives port 22, both with host
`host`. -/
theorem extractReverseHostPort_port_witness :
    (extractReverseHostPort okEnv "host:3".toList initialGlobals
      = Except.ok { initialGlobals with rhost := some "host".toList, rport := 5503 }) ∧
    (extractReverseHostPort okEnv "host:-22".toList initialGlobals
      = Except.ok { initialGlobals with rhost := some "host".toList, rport := 22 }) :=
  ⟨extractReverseHostPort_port okEnv initialGlobals "host".toList "3".toList false
      rfl (by decide) (by decide) (by decide),
   extractReverseHostPort_port okEnv initialGlobals "host".toList "22".toList true
      rfl (by decide) (by decide) (by decide)⟩

/-! ## C2: the `-s` flag -/

/-- C2: when the loop stands on a `-s` flag whose value argument reads as the integer `r`,
the pass sets `scaling` to `r` if `1 ≤ r ≤ 150` and to 100 otherwise, whatever the
variables held before, changes no other variable and moves on past the value. -/
theorem scaling_flag (env : Env) (argv : List CStr) (i : Nat) (g : Globals) (cur v : CStr)
    (r : Int) (hcur : argv[i]? = some cur) (hdash : cur.head? = some '-')
    (hs : cur.getD 1 NUL = 's') (hv : argv[i + 1]? = some v) (hr : atoi v = r) :
    ∃ g1 : Globals, argStep env argv i g = Except.ok (i + 2, g1) ∧
      (g1.scaling : Int) = claimedScaling r ∧ g1 = { g with scaling := g1.scaling } := by
  unfold argStep argBody flagSwitch
  simp only [hcur, hv, hdash, hs, Char.reduceEq, if_true, if_false, flagValue, hr]
  unfold claimedScaling
  by_cases h : 1 ≤ r ∧ r ≤ 150
  · rw [if_pos h, if_pos h]
    refine ⟨_, rfl, ?_, rfl⟩
    simp only [toU16]
    omega
  · rw [if_neg h, if_neg h]
    exact ⟨_, rfl, rfl, rfl⟩

/-- C2 (witness): `-s 0` and `-s 200` give scaling 100 and `-s 50` gives 50, from a state
whose scaling was 7. -/
theorem scaling_flag_witness :
    (∃ g1 : Globals, argStep okEnv (cmdline ["vnc", "-s", "0"]) 1
        { initialGlobals with scaling := 7 } = Except.ok (3, g1) ∧
      (g1.scaling : Int) = 100 ∧ g1 = { { initialGlobals with scaling := 7 } with
        scaling := g1.scaling }) ∧
    (∃ g1 : Globals, argStep okEnv (cmdline ["vnc", "-s", "200"]) 1
        { initialGlobals with scaling := 7 } = Except.ok (3, g1) ∧
      (g1.scaling : Int) = 100 ∧ g1 = { { initialGlobals with scaling := 7 } with
        scaling := g1.scaling }) ∧
    (∃ g1 : Globals, argStep okEnv (cmdline ["vnc", "-s", "50"]) 1
        { initialGlobals with scaling := 7 } = Except.ok (3, g1) ∧
      (g1.scaling : Int) = 50 ∧ g1 = { { initialGlobals with scaling := 7 } with
        scaling := g1.scaling }) :=
  ⟨scaling_flag okEnv (cmdline ["vnc", "-s", "0"]) 1 _ "-s".toList "0".toList 0
      rfl rfl rfl rfl (by decide),
   scaling_flag okEnv (cmdline ["vnc", "-s", "200"]) 1 _ "-s".toList "200".toList 200
      rfl rfl rfl rfl (by decide),
   scaling_flag okEnv (cmdline ["vnc", "-s", "50"]) 1 _ "-s".toList "50".toList 50
      rfl rfl rfl rfl (by decide)⟩

/-! ## C3: the `-r` flag -/

/-- C3: when the loop stands on a `-r` flag whose value argument reads as the integer `r`,
the pass sets `rotation` to `r` if `r` is 0, 90, 180 or 270 and leaves it as it was for
every other value, changes no other variable and moves on past the value. -/
theorem rotation_flag (env : Env) (argv : List CStr) (i : Nat) (g : Globals) (cur v : CStr)
    (r : Int) (hcur : argv[i]? = some cur) (hdash : cur.head? = some '-')
    (hs : cur.getD 1 NUL = 'r') (hv : argv[i + 1]? = some v) (hr : atoi v = r) :
    ∃ g1 : Globals, argStep env argv i g = Except.ok (i + 2, g1) ∧
      (g1.rotation : Int) = claimedRotation g.rotation r ∧
      g1 = { g with rotation := g1.rotation } := by
  unfold argStep argBody flagSwitch
  simp only [hcur, hv, hdash, hs, Char.reduceEq, if_true, if_false, flagValue, hr]
  unfold claimedRotation
  by_cases h : r = 0 ∨ r = 90 ∨ r = 180 ∨ r = 270
  · rw [if_pos h, if_pos h]
    refine ⟨_, rfl, ?_, rfl⟩
    simp only [toU16]
    omega
  · rw [if_neg h, if_neg h]
    exact ⟨_, rfl, rfl, rfl⟩

/-- C3 (witness): `-r 45` leaves a rotation of 180 as it was, `-r 270` sets it to 270. -/
theorem rotation_flag_witness :
    (∃ g1 : Globals, argStep okEnv (cmdline ["vnc", "-r", "45"]) 1
        { initialGlobals with rotation := 180 } = Except.ok (3, g1) ∧
      (g1.rotation : Int) = 180 ∧ g1 = { { initialGlobals with rotation := 180 } with
        rotation := g1.rotation }) ∧
    (∃ g1 : Globals, argStep okEnv (cmdline ["vnc", "-r", "270"]) 1
        { initialGlobals with rotation := 180 } = Except.ok (3, g1) ∧
      (g1.rotation : Int) = 270 ∧ g1 = { { initialGlobals with rotation := 180 } with
        rotation := g1.rotation }) :=
  ⟨rotation_flag okEnv (cmdline ["vnc", "-r", "45"]) 1 _ "-r".toList "45".toList 45
      rfl rfl rfl rfl (by decide),
   rotation_flag okEnv (cmdline ["vnc", "-r", "270"]) 1 _ "-r".toList "270".toList 270
      rfl rfl rfl rfl (by decide)⟩

/-! ## C4: the `-z` flag -/

/-- C4 (the code at the failing input): after `-z` the loop skips the next argument, so
`-z -r 90` leaves the rotation at 0 with the flag set, while `-r 90 -z` gives rotation 90
with the flag set; the pass on `-z` itself moves the index from 1 to 3. -/
theorem z_flag_skips_next_argument :
    (parseArgs okEnv (cmdline ["vnc", "-z", "-r", "90"]) initialGlobals
      = Except.ok { initialGlobals with display_rotate_180 := 1 }) ∧
    (parseArgs okEnv (cmdline ["vnc", "-r", "90", "-z"]) initialGlobals
      = Except.ok { initialGlobals with display_rotate_180 := 1, rotation := 90 }) ∧
    (argStep okEnv (cmdline ["vnc", "-z", "-r", "90"]) 1 initialGlobals
      = Except.ok (3, { initialGlobals with display_rotate_180 := 1 })) := by
  decide

/-! ## C5: unknown flags -/

/-- C5: when `pre.length` is a flag position of the run on `pre ++ post` (a value the loop
index takes at the loop test) and `x` is an argument whose character after the first is not
one of h, d, p, f, z, P, r, s, R, i, m, then parsing `pre ++ x :: post` ends exactly as
parsing `pre ++ post` does, with the same value of every variable, and the pass on `x`
advances the index by one and changes nothing, so the argument after `x` is parsed as the
next flag. -/
theorem unknown_flag_ignored (env : Env) (pre post : List CStr) (x : CStr) (g0 : Globals)
    (hx : x.getD 1 NUL ∉ knownFlags)
    (hpos : pre.length ∈ flagPositions env (pre ++ post) (pre ++ post).length 1 g0) :
    parseArgs env (pre ++ x :: post) g0 = parseArgs env (pre ++ post) g0 ∧
    ∀ g : Globals,
      argStep env (pre ++ x :: post) pre.length g = Except.ok (pre.length + 1, g) := by
  refine ⟨?_, fun g => argStep_at_unknown env pre post x g hx⟩
  have h1 : 1 ≤ pre.length := flagPositions_ge env _ _ 1 g0 _ hpos
  have hlen : (pre ++ x :: post).length = (pre ++ post).length + 1 := by
    simp only [List.length_append, List.length_cons]
    omega
  unfold parseArgs
  rw [hlen]
  exact argLoop_insert env pre post x hx _ 1 g0 h1 hpos

/-- C5 (witness): the unknown flag `-x` put between `-r 90` and `-s 50` changes nothing. -/
theorem unknown_flag_ignored_witness :
    (parseArgs okEnv (cmdline ["vnc", "-r", "90", "-x", "-s", "50"]) initialGlobals
      = parseArgs okEnv (cmdline ["vnc", "-r", "90", "-s", "50"]) initialGlobals) ∧
    (parseArgs okEnv (cmdline ["vnc", "-r", "90", "-s", "50"]) initialGlobals
      = Except.ok { initialGlobals with rotation := 90, scaling := 50 }) :=
  ⟨(unknown_flag_ignored okEnv (cmdline ["vnc", "-r", "90"]) (cmdline ["-s", "50"])
      "-x".toList initialGlobals (by decide) (by decide)).1, by decide⟩

/-! ## C6: backend order under AUTO -/

/-- C6 (as stated, refuted): when FLINGER, GRALLOC and FB all fail and the ADB `init` would
succeed, `initGrabberMethod` under AUTO does not call the ADB `init` and does not select
ADB: `method` stays AUTO. -/
theorem initGrabberMethod_auto_never_adb :
    initRet onlyAdbEnv method_type.FLINGER = -1 ∧
    initRet onlyAdbEnv method_type.GRALLOC = -1 ∧
    initRet onlyAdbEnv method_type.FRAMEBUFFER = -1 ∧
    initRet onlyAdbEnv method_type.ADB ≠ -1 ∧
    initGrabberMethod onlyAdbEnv method_type.AUTO
      = (method_type.AUTO,
          [method_type.FLINGER, method_type.GRALLOC, method_type.FRAMEBUFFER]) := by
  decide

/-- C6 (amended): under AUTO `initGrabberMethod` calls the backend `init` functions in the
order FLINGER, GRALLOC, FB and never that of ADB; every backend tried before the last one
failed; when a backend is selected it is the last one tried and its `init` did not return
-1, so no backend after it is initialised; ADB is never selected, and `method` stays AUTO
exactly when all three fail. -/
theorem initGrabberMethod_auto (env : Env) :
    ∃ (m : method_type) (calls : List method_type),
      initGrabberMethod env method_type.AUTO = (m, calls) ∧
      calls <+: [method_type.FLINGER, method_type.GRALLOC, method_type.FRAMEBUFFER] ∧
      (∀ b ∈ calls.dropLast, initRet env b = -1) ∧
      (m ≠ method_type.AUTO → calls.getLast? = some m ∧ initRet env m ≠ -1) ∧
      (m = method_type.AUTO ↔
        env.initFlinger = -1 ∧ env.initGralloc = -1 ∧ env.initFB = -1) ∧
      (m = method_type.AUTO →
        calls = [method_type.FLINGER, method_type.GRALLOC, method_type.FRAMEBUFFER]) ∧
      m ≠ method_type.ADB ∧ method_type.ADB ∉ calls := by
  unfold initGrabberMethod
  rw [if_pos rfl]
  by_cases h1 : env.initFlinger = -1
  · by_cases h2 : env.initGralloc = -1
    · by_cases h3 : env.initFB = -1
      · refine ⟨_, _, by rw [if_neg (not_not.mpr h1), if_neg (not_not.mpr h2),
          if_neg (not_not.mpr h3)], ?_⟩
        simp [initRet, h1, h2, h3]
      · refine ⟨_, _, by rw [if_neg (not_not.mpr h1), if_neg (not_not.mpr h2), if_pos h3], ?_⟩
        refine ⟨⟨[], rfl⟩, ?_⟩
        simp [initRet, h1, h2, h3]
    · refine ⟨_, _, by rw [if_neg (not_not.mpr h1), if_pos h2], ?_⟩
      refine ⟨⟨[method_type.FRAMEBUFFER], rfl⟩, ?_⟩
      simp [initRet, h1, h2]
  · refine ⟨_, _, by rw [if_pos h1], ?_⟩
    refine ⟨⟨[method_type.GRALLOC, method_type.FRAMEBUFFER], rfl⟩, ?_⟩
    simp [initRet, h1]

/-- C6 (witness): the statement for an environment in which FLINGER fails to initialise
and the other backends initialise. -/
theorem initGrabberMethod_auto_witness :
    ∃ (m : method_type) (calls : List method_type),
      initGrabberMethod { okEnv with initFlinger := -1 } method_type.AUTO = (m, calls) ∧
      calls <+: [method_type.FLINGER, method_type.GRALLOC, method_type.FRAMEBUFFER] ∧
      (∀ b ∈ calls.dropLast, initRet { okEnv with initFlinger := -1 } b = -1) ∧
      (m ≠ method_type.AUTO →
        calls.getLast? = some m ∧ initRet { okEnv with initFlinger := -1 } m ≠ -1) ∧
      (m = method_type.AUTO ↔ (-1 : Int) = -1 ∧ (0 : Int) = -1 ∧ (0 : Int) = -1) ∧
      (m = method_type.AUTO →
        calls = [method_type.FLINGER, method_type.GRALLOC, method_type.FRAMEBUFFER]) ∧
      m ≠ method_type.ADB ∧ method_type.ADB ∉ calls :=
  initGrabberMethod_auto { okEnv with initFlinger := -1 }

/-! ## C7: failure of an explicitly selected backend -/

/-- C7 (as stated, refuted): with `-m fb` and an `initFB` that returns -1, start-up does not
exit with status -1: `main` goes on to call `initInput` and `newVncServer`, and the run
reaches line 460 with `method` still FRAMEBUFFER. -/
theorem explicit_init_failure_reaches_newVncServer :
    initRet fbFailEnv method_type.FRAMEBUFFER = -1 ∧
    (mainStartup fbFailEnv format10x4 (cmdline ["vnc", "-m", "fb"])).1
      = [Event.init method_type.FRAMEBUFFER, Event.initInput, Event.newVncServer] ∧
    (mainStartup fbFailEnv format10x4 (cmdline ["vnc", "-m", "fb"])).2.map
        (fun r => (r.1.method, r.2.width, r.2.height))
      = Except.ok (method_type.FRAMEBUFFER, 10, 4) := by
  decide

/-- C7 (amended): when the argument loop ends with an explicitly selected backend
(`method` is not AUTO) whose `init` returns -1, `initGrabberMethod` ignores the return
value: `method` stays as selected, start-up does not exit with status -1 there, and `main`
goes on to call `initInput` and `newVncServer`. -/
theorem explicit_init_failure_not_fatal (env : Env) (sf : screenFormat) (argv : List CStr)
    (g : Globals) (hparse : parseArgs env argv initialGlobals = Except.ok g)
    (hm : g.method ≠ method_type.AUTO) (_hfail : initRet env g.method = -1) :
    (initGrabberMethod env g.method).1 = g.method ∧
    (∀ b ∈ (initGrabberMethod env g.method).2, b = g.method) ∧
    (mainStartup env sf argv).1
      = (initGrabberMethod env g.method).2.map Event.init
          ++ [Event.initInput, Event.newVncServer] ∧
    (mainStartup env sf argv).2 ≠ Except.error (Abort.exit (-1)) := by
  have hsel : (initGrabberMethod env g.method).1 = g.method := by
    unfold initGrabberMethod
    rw [if_neg hm]
    split_ifs <;> rfl
  have hcalls : ∀ b ∈ (initGrabberMethod env g.method).2, b = g.method := by
    unfold initGrabberMethod
    rw [if_neg hm]
    split_ifs <;> simp_all
  refine ⟨hsel, hcalls, ?_, ?_⟩
  · unfold mainStartup
    rw [hparse]
    simp only []
    split <;> rfl
  · unfold mainStartup
    rw [hparse]
    simp only []
    split
    · rename_i e he
      intro h
      have he1 : e = Abort.exit (-1) := Except.error.inj h
      subst he1
      unfold newVncServer at he
      split_ifs at he <;> cases he
    · intro h
      cases h

/-- C7 (witness): `-m fb` with a failing `initFB`. -/
theorem explicit_init_failure_not_fatal_witness :
    (initGrabberMethod fbFailEnv method_type.FRAMEBUFFER).1 = method_type.FRAMEBUFFER ∧
    (∀ b ∈ (initGrabberMethod fbFailEnv method_type.FRAMEBUFFER).2,
      b = method_type.FRAMEBUFFER) ∧
    (mainStartup fbFailEnv format10x4 (cmdline ["vnc", "-m", "fb"])).1
      = (initGrabberMethod fbFailEnv method_type.FRAMEBUFFER).2.map Event.init
          ++ [Event.initInput, Event.newVncServer] ∧
    (mainStartup fbFailEnv format10x4 (cmdline ["vnc", "-m", "fb"])).2
      ≠ Except.error (Abort.exit (-1)) :=
  explicit_init_failure_not_fatal fbFailEnv format10x4 (cmdline ["vnc", "-m", "fb"])
    { initialGlobals with method := method_type.FRAMEBUFFER } (by decide) (by decide)
    (by decide)

/-! ## C8: screen dimensions -/

/-- C8: for every backend size `(W, H)` and every rotation, when the allocations succeed
`newVncServer` returns a screen; it is created with width `W` and height `H` if the
rotation is 0 or 180, and with width `H` and height `W` if the rotation is 90 or 270. -/
theorem newVncServer_dimensions (env : Env) (g : Globals) (sf : screenFormat)
    (hcalloc : env.callocOk = true) (hscreen : env.rfbGetScreenOk = true) :
    ∃ vncscr : rfbScreenInfo, newVncServer env g sf = Except.ok vncscr ∧
      ((g.rotation = 0 ∨ g.rotation = 180) →
        vncscr.width = sf.width ∧ vncscr.height = sf.height) ∧
      ((g.rotation = 90 ∨ g.rotation = 270) →
        vncscr.width = sf.height ∧ vncscr.height = sf.width) := by
  unfold newVncServer
  simp only [hcalloc, hscreen, Bool.true_eq_false, if_false]
  refine ⟨_, rfl, ?_, ?_⟩
  · intro h
    rw [if_pos h]
    exact ⟨rfl, rfl⟩
  · intro h
    have h0 : ¬ (g.rotation = 0 ∨ g.rotation = 180) := by omega
    rw [if_neg h0]
    exact ⟨rfl, rfl⟩

/-- C8 (witness): rotation 90 on the 10x4 backend creates a screen of width 4 and height
10. -/
theorem newVncServer_dimensions_witness :
    ∃ vncscr : rfbScreenInfo,
      newVncServer okEnv { initialGlobals with rotation := 90 } format10x4
        = Except.ok vncscr ∧ vncscr.width = 4 ∧ vncscr.height = 10 :=
  match newVncServer_dimensions okEnv { initialGlobals with rotation := 90 } format10x4
      rfl rfl with
  | ⟨vncscr, h, _, h90⟩ => ⟨vncscr, h, h90 (by decide)⟩

/-! ## C9: published channel maxima -/

/-- C9 (the code at the failing input): for the format the modern FLINGER backend reports
for a capture that is not RGB_565, `newVncServer` copies shifts and bits-per-pixel, but the
green maximum `(1 << 23) - 1 = 8388607` does not fit the 16-bit field and is stored as
65535, and the red maximum asks for `1 << 32`, outside the defined range of the 32-bit
shift; only the blue maximum is `2^15 - 1`. -/
theorem newVncServer_flinger_maxima_overflow :
    (newVncServer okEnv initialGlobals
        (getscreenformat_flinger ⟨10, 4, 160, PIXEL_FORMAT_RGBA_8888⟩ androidBitsPerPixel)).map
        (fun s => (s.serverFormat.bitsPerPixel, s.serverFormat.redShift,
          s.serverFormat.greenShift, s.serverFormat.blueShift, s.serverFormat.redMax,
          s.serverFormat.greenMax, s.serverFormat.blueMax))
      = Except.ok (32, 24, 16, 8, none, some 65535, some 32767) ∧
    (getscreenformat_flinger ⟨10, 4, 160, PIXEL_FORMAT_RGBA_8888⟩ androidBitsPerPixel).greenMax
      = 23 ∧
    (getscreenformat_flinger ⟨10, 4, 160, PIXEL_FORMAT_RGBA_8888⟩ androidBitsPerPixel).redMax
      = 32 ∧
    (65535 : Nat) ≠ 2 ^ 23 - 1 := by
  refine ⟨by rfl, by rfl, by rfl, by norm_num⟩

/-! ## C10: the format reported by the modern FLINGER backend -/

/-- C10 (the code at the failing inputs): `getscreenformat_flinger` reports the shifts
11, 5, 0, 0 for RGB_565 and 24, 16, 8, 0 for every other format, but stores 16, 10, 4, 0 in
the channel fields `redMax`, `greenMax`, `blueMax`, `alphaMax` for RGB_565, not the bit
counts 5, 5, 5, 0, and 32, 23, 15, 7 for every other format, not 8, 8, 8, 8. -/
theorem getscreenformat_flinger_channel_fields (sc : ScreenshotClient) (bpp : Nat → Nat) :
    ((getscreenformat_flinger sc bpp).redShift, (getscreenformat_flinger sc bpp).greenShift,
      (getscreenformat_flinger sc bpp).blueShift, (getscreenformat_flinger sc bpp).alphaShift)
      = (if sc.format = PIXEL_FORMAT_RGB_565 then (11, 5, 0, 0) else (24, 16, 8, 0)) ∧
    ((getscreenformat_flinger sc bpp).redMax, (getscreenformat_flinger sc bpp).greenMax,
      (getscreenformat_flinger sc bpp).blueMax, (getscreenformat_flinger sc bpp).alphaMax)
      = (if sc.format = PIXEL_FORMAT_RGB_565 then (16, 10, 4, 0) else (32, 23, 15, 7)) ∧
    ((getscreenformat_flinger sc bpp).redMax, (getscreenformat_flinger sc bpp).greenMax,
      (getscreenformat_flinger sc bpp).blueMax, (getscreenformat_flinger sc bpp).alphaMax)
      ≠ (if sc.format = PIXEL_FORMAT_RGB_565 then (5, 5, 5, 0) else (8, 8, 8, 8)) := by
  unfold getscreenformat_flinger
  by_cases h : sc.format = PIXEL_FORMAT_RGB_565
  · simp [h]
  · simp [h]

/-! ## Lemmas on the connection stage, the loop and the invariant -/

theorem connectStage_screen (net : NetEnv) (s s1 : LoopState)
    (h : connectStage net s = Except.ok s1) :
    s1.vncscr.modified = s.vncscr.modified ∧ s1.vncscr.width = s.vncscr.width ∧
    s1.vncscr.height = s.vncscr.height ∧ s1.captures = s.captures ∧ s1.g.running = 1 := by
  unfold connectStage at h
  split_ifs at h <;> cases h <;> exact ⟨rfl, rfl, rfl, rfl, rfl⟩

theorem rfbProcessEvents_running (ev : Events) (s : LoopState) (h : ev.gone = false) :
    (rfbProcessEvents ev s).g.running = s.g.running ∧
    (rfbProcessEvents ev s).captures = s.captures ∧
    (rfbProcessEvents ev s).vncscr.clientHead = ev.clients := by
  unfold rfbProcessEvents
  rw [if_neg (by rw [h]; decide)]
  cases ev.setIdle <;> exact ⟨rfl, rfl, rfl⟩

theorem rfbProcessEvents_fields (ev : Events) (s : LoopState) :
    (rfbProcessEvents ev s).captures = s.captures ∧
    (rfbProcessEvents ev s).vncscr.clientHead = ev.clients ∧
    (rfbProcessEvents ev s).g.standby = s.g.standby ∧
    (rfbProcessEvents ev s).vncscr.modified = s.vncscr.modified ∧
    (ev.setIdle = none → (rfbProcessEvents ev s).g.idle = s.g.idle) := by
  unfold rfbProcessEvents clientGone
  split <;> cases ev.setIdle <;> refine ⟨rfl, rfl, rfl, rfl, fun h => ?_⟩ <;>
    first | rfl | cases h

theorem loopIteration_no_client (ev : Events) (s : LoopState)
    (hc : ev.clients = []) (hg : ev.gone = false) :
    (loopIteration ev s).g.standby = 50 ∧ (loopIteration ev s).g.idle = 1 ∧
    (loopIteration ev s).captures = s.captures ∧
    (loopIteration ev s).g.running = s.g.running := by
  obtain ⟨h1, h2, h3⟩ := rfbProcessEvents_running ev s hg
  rw [hc] at h3
  unfold loopIteration afterEvents
  rw [if_pos h3]
  refine ⟨rfl, rfl, h2, ?_⟩
  simp only [pace]
  split <;> exact h1

theorem loopTrace_no_client (evs : List Events) :
    ∀ s : LoopState, s.g.running ≠ 0 →
      (∀ ev ∈ evs, ev.clients = [] ∧ ev.gone = false) →
      (loopTrace evs s).length = evs.length ∧
      ∀ s1 ∈ loopTrace evs s,
        s1.g.standby = 50 ∧ s1.g.idle = 1 ∧ s1.captures = s.captures := by
  induction evs with
  | nil =>
    intro s _ _
    exact ⟨rfl, fun s1 h1 => absurd h1 (List.not_mem_nil _)⟩
  | cons ev rest ih =>
    intro s hrun hev
    obtain ⟨hc, hg⟩ := hev ev (List.mem_cons_self _ _)
    obtain ⟨h1, h2, h3, h4⟩ := loopIteration_no_client ev s hc hg
    have hrun1 : (loopIteration ev s).g.running ≠ 0 := by rw [h4]; exact hrun
    obtain ⟨ihl, iht⟩ := ih (loopIteration ev s) hrun1
      (fun e he => hev e (List.mem_cons_of_mem _ he))
    rw [loopTrace, if_pos hrun]
    refine ⟨by rw [List.length_cons, ihl, List.length_cons], ?_⟩
    intro s1 hs1
    rcases List.mem_cons.mp hs1 with e | hmem
    · rw [e]
      exact ⟨h1, h2, h3⟩
    · obtain ⟨a, b, c⟩ := iht s1 hmem
      exact ⟨a, b, c.trans h3⟩

theorem extractReverseHostPort_inv (env : Env) (v : CStr) (g g1 : Globals)
    (h : extractReverseHostPort env v g = Except.ok g1) :
    g1.rotation = g.rotation ∧ g1.scaling = g.scaling := by
  unfold extractReverseHostPort at h
  split at h
  · cases h
  · split at h <;> cases h <;> exact ⟨rfl, rfl⟩

theorem flagSwitch_inv (env : Env) (c : Char) (next : Option CStr) (i j : Nat)
    (g g1 : Globals) (hinv : SessionInv g)
    (h : flagSwitch env c next i g = Except.ok (j, g1)) : SessionInv g1 := by
  by_cases hk : c ∈ knownFlags
  · have hR := extractReverseHostPort_inv env
    simp only [knownFlags, List.mem_cons, List.mem_singleton, List.mem_nil_iff, or_false] at hk
    unfold flagSwitch at h
    obtain ⟨hrot, hs1, hs2⟩ := hinv
    rcases hk with e | e | e | e | e | e | e | e | e | e | e <;> subst e <;>
      simp only [Char.reduceEq, if_true, if_false] at h <;>
      cases next <;> (try simp only [flagValue] at h) <;> first
      | (cases h; done)
      | (cases h; exact ⟨hrot, hs1, hs2⟩)
      | (split at h <;> cases h <;> exact ⟨hrot, hs1, hs2⟩)
      | (split_ifs at h <;> cases h <;> exact ⟨hrot, hs1, hs2⟩)
      | (split at h
         · cases h
         · rename_i g2 he
           cases h
           obtain ⟨a, b⟩ := hR _ g _ he
           exact ⟨by rw [a]; exact hrot, by rw [b]; exact hs1, by rw [b]; exact hs2⟩)
      | (split at h
         · rename_i hr
           cases h
           refine ⟨?_, hs1, hs2⟩
           show toU16 _ = 0 ∨ toU16 _ = 90 ∨ toU16 _ = 180 ∨ toU16 _ = 270
           unfold toU16
           omega
         · cases h
           exact ⟨hrot, hs1, hs2⟩)
      | (split at h
         · rename_i hr
           cases h
           refine ⟨hrot, ?_, ?_⟩
           · show 1 ≤ toU16 _
             unfold toU16
             omega
           · show toU16 _ ≤ 150
             unfold toU16
             omega
         · cases h
           exact ⟨hrot, (by decide : 1 ≤ 100), (by decide : 100 ≤ 150)⟩)
  · rw [flagSwitch_unknown env c next i g hk] at h
    cases h
    exact hinv

theorem argStep_inv (env : Env) (argv : List CStr) (i j : Nat) (g g1 : Globals)
    (hinv : SessionInv g) (h : argStep env argv i g = Except.ok (j, g1)) : SessionInv g1 := by
  unfold argStep at h
  cases hc : argv[i]? with
  | none => rw [hc] at h; cases h
  | some cur =>
    rw [hc] at h
    simp only [] at h
    unfold argBody at h
    split at h
    · exact flagSwitch_inv env _ _ i j g g1 hinv h
    · cases h
      exact hinv

theorem readfb_flinger_times_updates (n : Nat) :
    ∀ st : FlingerState,
      (readfb_flinger_times n st).updates
        = st.updates ++ List.replicate n st.captureOrientation ∧
      (readfb_flinger_times n st).captureOrientation = st.captureOrientation := by
  induction n with
  | zero =>
    intro st
    exact ⟨by simp [readfb_flinger_times], rfl⟩
  | succ k ih =>
    intro st
    obtain ⟨h1, h2⟩ := ih (readfb_flinger st)
    rw [readfb_flinger_times, h1, h2]
    simp [readfb_flinger, List.replicate_succ]

/-! ## C11: first-frame totality -/

/-- C11: for every supported depth (8, 16 or 32 bits per pixel) and every rotation, when the
allocations succeed `newVncServer` creates a screen and `initVncServer` marks on it the
single rectangle `(0, 0, width, height)`, which covers every pixel of the screen; the
connection stage that follows leaves that mark and the dimensions as they are and makes no
capture, so the publication loop is entered with the whole surface marked. -/
theorem initVncServer_first_frame (env : Env) (g : Globals) (sf : screenFormat)
    (hcalloc : env.callocOk = true) (hscreen : env.rfbGetScreenOk = true)
    (hdepth : sf.bitsPerPixel = 8 ∨ sf.bitsPerPixel = 16 ∨ sf.bitsPerPixel = 32) :
    ∃ vncscr vncscr1 : rfbScreenInfo,
      newVncServer env g sf = Except.ok vncscr ∧
      initVncServer vncscr = Except.ok (vncscr1, sf.bitsPerPixel) ∧
      vncscr1.modified = [(0, 0, vncscr.width, vncscr.height)] ∧
      vncscr1.width = vncscr.width ∧ vncscr1.height = vncscr.height ∧
      (∀ x y : Int, 0 ≤ x → x < vncscr1.width → 0 ≤ y → y < vncscr1.height →
        covered vncscr1.modified x y) ∧
      (∀ (net : NetEnv) (s : LoopState),
        connectStage net (loopStart g vncscr1 sf.bitsPerPixel) = Except.ok s →
        s.captures = 0 ∧ s.vncscr.modified = [(0, 0, s.vncscr.width, s.vncscr.height)] ∧
        s.vncscr.width = vncscr.width ∧ s.vncscr.height = vncscr.height) := by
  have hnew : ∃ vncscr : rfbScreenInfo, newVncServer env g sf = Except.ok vncscr ∧
      vncscr.modified = [] ∧ vncscr.serverFormat.bitsPerPixel = sf.bitsPerPixel := by
    unfold newVncServer
    simp only [hcalloc, hscreen, Bool.true_eq_false, if_false]
    refine ⟨_, rfl, ?_, rfl⟩
    split <;> rfl
  obtain ⟨vncscr, hv, hmod, hbpp⟩ := hnew
  have hinit : initVncServer vncscr
      = Except.ok (rfbMarkRectAsModified vncscr 0 0 vncscr.width vncscr.height,
          sf.bitsPerPixel) := by
    unfold initVncServer
    rw [hbpp]
    rcases hdepth with h | h | h <;> rw [h] <;> simp
  have hm : (rfbMarkRectAsModified vncscr 0 0 vncscr.width vncscr.height).modified
      = [(0, 0, vncscr.width, vncscr.height)] := by
    simp [rfbMarkRectAsModified, hmod]
  refine ⟨vncscr, _, hv, hinit, hm, rfl, rfl, ?_, ?_⟩
  · intro x y hx0 hx1 hy0 hy1
    rw [hm]
    exact ⟨_, List.mem_singleton.mpr rfl, hx0, hx1, hy0, hy1⟩
  · intro net s hs
    obtain ⟨h1, h2, h3, h4, _⟩ := connectStage_screen net _ s hs
    refine ⟨h4, ?_, h2, h3⟩
    rw [h1, h2, h3]
    exact hm

/-- C11 (witness): rotation 90 on the 10x4 backend at 32 bits per pixel: the rectangle
marked is `(0, 0, 4, 10)`. -/
theorem initVncServer_first_frame_witness :
    ∃ vncscr vncscr1 : rfbScreenInfo,
      newVncServer okEnv { initialGlobals with rotation := 90 } format10x4
        = Except.ok vncscr ∧
      initVncServer vncscr = Except.ok (vncscr1, 32) ∧
      vncscr1.modified = [(0, 0, 4, 10)] :=
  match initVncServer_first_frame okEnv { initialGlobals with rotation := 90 } format10x4
      rfl rfl (by decide) with
  | ⟨vncscr, vncscr1, h1, h2, h3, _⟩ =>
    ⟨vncscr, vncscr1, h1, h2, by
      have hv := Except.ok.inj (h1.symm.trans (by rfl :
        newVncServer okEnv { initialGlobals with rotation := 90 } format10x4 = Except.ok _))
      rw [h3, hv]
      rfl⟩

/-! ## C12: `rotate` -/

/-- C12: for every screen and every `rotate(value)` call that changes the orientation class
(`value` 90 or 270 while `rotation` is 0 or 180, `value` 0 or 180 while `rotation` is 90 or
270, or `value` -1), `rotate` exchanges the width and height of the screen, sets the
resize-pending flag of every attached client, keeping the roster otherwise, and marks the
full surface with the new dimensions `(0, 0, new width, new height)` as modified. -/
theorem rotate_swaps_dimensions (sf : screenFormat) (value : Int) (g : Globals)
    (vncscr : rfbScreenInfo)
    (h : value = -1 ∨
      ((value = 90 ∨ value = 270) ∧ (g.rotation = 0 ∨ g.rotation = 180)) ∨
      ((value = 0 ∨ value = 180) ∧ (g.rotation = 90 ∨ g.rotation = 270))) :
    (rotate sf value g vncscr).2.width = vncscr.height ∧
    (rotate sf value g vncscr).2.height = vncscr.width ∧
    (∀ cl ∈ (rotate sf value g vncscr).2.clientHead, cl.newFBSizePending = true) ∧
    (rotate sf value g vncscr).2.clientHead.map (fun cl => cl.onHold)
      = vncscr.clientHead.map (fun cl => cl.onHold) ∧
    (rotate sf value g vncscr).2.modified
      = vncscr.modified ++ [(0, 0, (rotate sf value g vncscr).2.width,
          (rotate sf value g vncscr).2.height)] := by
  have hs : rotateSwaps value g.rotation := h
  unfold rotate
  simp only [hs, if_true, rfbMarkRectAsModified]
  refine ⟨trivial, trivial, ?_, ?_, trivial⟩
  · intro cl hcl
    obtain ⟨c0, _, rfl⟩ := List.mem_map.mp hcl
    rfl
  · rw [List.map_map]
    rfl

/-- C12 (witness): rotating from 0 to 90 on a 10x4 screen with one client gives a 4x10
screen, the client flagged, and the rectangle `(0, 0, 4, 10)` marked. -/
theorem rotate_swaps_dimensions_witness :
    (rotate format10x4 90 initialGlobals screen10x4).2.width = 4 ∧
    (rotate format10x4 90 initialGlobals screen10x4).2.height = 10 ∧
    (rotate format10x4 90 initialGlobals screen10x4).2.clientHead
      = [{ newFBSizePending := true, onHold := false }] ∧
    (rotate format10x4 90 initialGlobals screen10x4).2.modified = [(0, 0, 4, 10)] :=
  have h := rotate_swaps_dimensions format10x4 90 initialGlobals screen10x4 (by decide)
  ⟨h.1, h.2.1, by decide, h.2.2.2.2⟩

/-! ## C13: the empty roster -/

/-- C13: in every pass of the publication loop in which the client roster is empty when
`rfbProcessEvents` returns, the loop sets `idle` to 1 (and `standby` to 50) and does not
call `update_screen`: the number of captures and the marked rectangles are as before. -/
theorem empty_roster_skips_capture (ev : Events) (s : LoopState) (h : ev.clients = []) :
    (rfbProcessEvents ev s).vncscr.clientHead = [] ∧
    (loopIteration ev s).g.idle = 1 ∧
    (loopIteration ev s).g.standby = 50 ∧
    (loopIteration ev s).captures = s.captures ∧
    (loopIteration ev s).vncscr.modified = s.vncscr.modified := by
  have hr : (rfbProcessEvents ev s).vncscr.clientHead = [] := by
    unfold rfbProcessEvents clientGone
    split <;> exact h
  have hc : (rfbProcessEvents ev s).captures = s.captures := by
    unfold rfbProcessEvents clientGone
    split <;> rfl
  have hm : (rfbProcessEvents ev s).vncscr.modified = s.vncscr.modified := by
    unfold rfbProcessEvents clientGone
    split <;> rfl
  refine ⟨hr, ?_, ?_, ?_, ?_⟩ <;> unfold loopIteration afterEvents <;> rw [if_pos hr]
  · exact hc
  · exact hm

/-- C13 (witness): the first pass from the entry state with no client. -/
theorem empty_roster_skips_capture_witness :
    (loopIteration noClient (entryState screen10x4 32)).g.idle = 1 ∧
    (loopIteration noClient (entryState screen10x4 32)).captures = 0 :=
  have h := empty_roster_skips_capture noClient (entryState screen10x4 32) rfl
  ⟨h.2.1, h.2.2.2.1⟩

/-! ## C14: idle backoff -/

/-- C14 (as stated, refuted): over five passes with no client from the entry state of the
loop, `standby` is 50 after every pass, not 50, 52, 54, 56, 58. -/
theorem standby_no_backoff_without_clients :
    (loopTrace [noClient, noClient, noClient, noClient, noClient]
        (entryState (rfbGetScreen 10 4 4) 32)).map (fun s => s.g.standby)
      = [50, 50, 50, 50, 50] ∧
    (loopTrace [noClient, noClient, noClient, noClient, noClient]
        (entryState (rfbGetScreen 10 4 4) 32)).map (fun s => s.g.standby)
      ≠ [50, 52, 54, 56, 58] := by
  decide

/-- C14 (amended): starting from the entry state of the loop, over consecutive passes in
which no client is connected and none leaves, every pass is made, and after each of them
`standby` is 50 and `idle` is 1, with no capture made: the increment by 2 of an idle pass
is overwritten by the assignment `standby = 50` of the empty-roster branch. -/
theorem standby_fixed_without_clients (vncscr : rfbScreenInfo) (depth : Nat)
    (evs : List Events) (hev : ∀ ev ∈ evs, ev.clients = [] ∧ ev.gone = false) :
    (loopTrace evs (entryState vncscr depth)).length = evs.length ∧
    ∀ s ∈ loopTrace evs (entryState vncscr depth),
      s.g.standby = 50 ∧ s.g.idle = 1 ∧ s.captures = 0 :=
  loopTrace_no_client evs (entryState vncscr depth) (Nat.succ_ne_zero 0) hev

/-- C14 (witness): five passes with no client. -/
theorem standby_fixed_without_clients_witness :
    (loopTrace [noClient, noClient, noClient, noClient, noClient]
        (entryState (rfbGetScreen 10 4 4) 32)).length = 5 ∧
    ∀ s ∈ loopTrace [noClient, noClient, noClient, noClient, noClient]
        (entryState (rfbGetScreen 10 4 4) 32),
      s.g.standby = 50 ∧ s.g.idle = 1 ∧ s.captures = 0 :=
  standby_fixed_without_clients (rfbGetScreen 10 4 4) 32
    [noClient, noClient, noClient, noClient, noClient] (by decide)

/-! ## C15: pacing with a client connected -/

/-- C15 (as stated, refuted): after a pass with no client the loop is idle with
`standby = 50`; in the next pass a client is connected, and `standby` is 52 when
`update_screen` is called, not 2. -/
theorem standby_not_reset_after_idle :
    (loopIteration noClient (entryState (rfbGetScreen 10 4 4) 32)).g.idle = 1 ∧
    (loopIteration noClient (entryState (rfbGetScreen 10 4 4) 32)).g.standby = 50 ∧
    (loopIteration oneClient
        (loopIteration noClient (entryState (rfbGetScreen 10 4 4) 32))).g.standby = 52 ∧
    (loopIteration oneClient
        (loopIteration noClient (entryState (rfbGetScreen 10 4 4) 32))).captures = 1 := by
  decide

/-- C15 (amended): in every pass of the publication loop in which a client is connected,
`update_screen` is called once, and before it `standby` is increased by 2 when `idle` is
set after the event processing (the loop was idle at the end of the previous pass and no
input hook cleared it) and is reset to 2 when `idle` is clear. -/
theorem standby_paced_with_client (ev : Events) (s : LoopState) (hc : ev.clients ≠ []) :
    (loopIteration ev s).captures = s.captures + 1 ∧
    ((rfbProcessEvents ev s).g.idle ≠ 0 →
      (loopIteration ev s).g.standby = (s.g.standby + 2) % 4294967296) ∧
    ((rfbProcessEvents ev s).g.idle = 0 → (loopIteration ev s).g.standby = 2) ∧
    (ev.setIdle = none → (rfbProcessEvents ev s).g.idle = s.g.idle) := by
  obtain ⟨h2, h3, hst, _, hid⟩ := rfbProcessEvents_fields ev s
  have hne : (rfbProcessEvents ev s).vncscr.clientHead ≠ [] := by rw [h3]; exact hc
  refine ⟨?_, ?_, ?_, hid⟩
  · unfold loopIteration afterEvents
    rw [if_neg hne]
    simp only [update_screen, h2]
  · intro hi
    unfold loopIteration afterEvents
    rw [if_neg hne]
    simp only [update_screen, pace, if_pos hi, hst]
  · intro hi
    unfold loopIteration afterEvents
    rw [if_neg hne]
    simp only [update_screen, pace, hi, ne_eq, not_true_eq_false, if_false]

/-- C15 (witness): a client connects after an idle pass with `standby = 50`. -/
theorem standby_paced_with_client_witness :
    (loopIteration oneClient
        (loopIteration noClient (entryState (rfbGetScreen 10 4 4) 32))).captures = 0 + 1 ∧
    (loopIteration oneClient
        (loopIteration noClient (entryState (rfbGetScreen 10 4 4) 32))).g.standby
      = (50 + 2) % 4294967296 :=
  have h := standby_paced_with_client oneClient
    (loopIteration noClient (entryState (rfbGetScreen 10 4 4) 32)) (by decide)
  ⟨h.1, h.2.1 (by decide)⟩

/-! ## C16: the repeater payload -/

set_option maxRecDepth 8000 in
/-- C16 (the code at the failing input): with `-i abc` the buffer handed to `write` is the
250 bytes that start at `repeaterId`: the 127 bytes of the array (the ID and 124 zero
bytes) followed by the 123 bytes that lie after the array in memory, here a byte `x` and
zeros; it is not the ID followed by zero bytes up to length 250. -/
theorem repeater_payload_reads_past_array :
    (mainEntry okEnv okNet format10x4 (cmdline ["vnc", "-i", "abc", "-R", "host:5500"])).map
        (fun s => s.written)
      = Except.ok ["abc".toList ++ List.replicate 124 NUL ++ 'x' :: List.replicate 122 NUL] ∧
    "abc".toList ++ List.replicate 124 NUL ++ 'x' :: List.replicate 122 NUL
      ≠ claimedPayload "abc".toList := by
  refine ⟨by decide, by decide⟩

/-! ## C17: remote endpoint failures -/

/-- C17 (as stated, refuted): with `-R host:5500` and a reverse connection that fails, the
run does not end with exit status 3: `main` reaches the publication loop with
`running = 1` and no client. -/
theorem reverse_failure_enters_loop :
    reverseFailNet.rfbReverseConnectionOk = false ∧
    (mainEntry okEnv reverseFailNet format10x4 (cmdline ["vnc", "-R", "host:5500"])).map
        (fun s => (s.g.running, s.g.rhost, s.vncscr.clientHead))
      = Except.ok (1, some "host".toList, []) := by
  decide

/-- C17 (amended): once `initVncServer` has returned, a failed connection to the repeater
host and a repeater ID that cannot be sent in full both end the run with exit status 3
before the publication loop; a failed reverse connection to the `-R` host does not: the
loop is entered with `running = 1` and the state otherwise as it was. -/
theorem remote_endpoint_failures (env : Env) (net : NetEnv) (sf : screenFormat)
    (argv : List CStr) (g : Globals) (vncscr vncscr1 : rfbScreenInfo) (depth : Nat)
    (hstart : (mainStartup env sf argv).2 = Except.ok (g, vncscr))
    (hinit : initVncServer vncscr = Except.ok (vncscr1, depth)) :
    (g.repeaterId.head? ≠ some NUL ∧ g.repeaterId ≠ [] →
      net.rfbConnect < 0 ∨ net.write ≠ 250 →
      mainEntry env net sf argv = Except.error (Abort.exit 3)) ∧
    (¬ (g.repeaterId.head? ≠ some NUL ∧ g.repeaterId ≠ []) → g.rhost ≠ none →
      net.rfbReverseConnectionOk = false →
      mainEntry env net sf argv
        = Except.ok { loopStart g vncscr1 depth with g := { g with running := 1 } }) := by
  have hm : mainEntry env net sf argv = connectStage net (loopStart g vncscr1 depth) := by
    unfold mainEntry
    rw [hstart]
    simp only [hinit]
  rw [hm]
  unfold connectStage
  simp only [loopStart]
  refine ⟨?_, ?_⟩
  · intro hid hfail
    rw [if_pos hid]
    by_cases hc : net.rfbConnect < 0
    · rw [if_pos hc]
    · rw [if_neg hc]
      rcases hfail with h | h
      · exact absurd h hc
      · rw [if_pos h]
  · intro hid hr hrev
    rw [if_neg hid, if_pos hr, if_pos hrev]

/-- C17 (witness): the reverse connection fails after `-R host:5500`, and the repeater
refuses the connection after `-i abc`. -/
theorem remote_endpoint_failures_witness :
    (mainEntry okEnv reverseFailNet format10x4 (cmdline ["vnc", "-R", "host:5500"])).map
        (fun s => s.g.running) = Except.ok 1 ∧
    mainEntry okEnv { okNet with rfbConnect := -1 } format10x4
        (cmdline ["vnc", "-i", "abc", "-R", "host:5500"]) = Except.error (Abort.exit 3) :=
  ⟨by
    rw [(remote_endpoint_failures okEnv reverseFailNet format10x4
      (cmdline ["vnc", "-R", "host:5500"]) _ _ _ 32 (by rfl) (by rfl)).2
      (by decide) (by decide) rfl]
    rfl,
   (remote_endpoint_failures okEnv { okNet with rfbConnect := -1 } format10x4
      (cmdline ["vnc", "-i", "abc", "-R", "host:5500"]) _ _ _ 32 (by rfl) (by rfl)).1
      (by decide) (Or.inl (by decide))⟩

/-! ## C18: the session-state invariant -/

/-- C18 (as stated, refuted): `rotate(45)` from the initial state, which satisfies the
invariant, leaves `rotation = 45`, outside `{0, 90, 180, 270}`. -/
theorem rotate_breaks_rotation_invariant :
    SessionInv initialGlobals ∧
    (rotate format10x4 45 initialGlobals screen10x4).1.rotation = 45 ∧
    ¬ SessionInv (rotate format10x4 45 initialGlobals screen10x4).1 := by
  decide

/-- C18 (amended): `rotation ∈ {0, 90, 180, 270}` and `scaling ∈ [1, 150]` hold in the
initial state and are preserved by every pass of the argument loop, so by the processing of
any `-r` and `-s` flag value, and by every call `rotate(value)` whose `value` is -1, 0, 90,
180 or 270. -/
theorem session_invariant_preserved :
    SessionInv initialGlobals ∧
    (∀ (env : Env) (argv : List CStr) (i j : Nat) (g g1 : Globals),
      SessionInv g → argStep env argv i g = Except.ok (j, g1) → SessionInv g1) ∧
    (∀ (sf : screenFormat) (value : Int) (g : Globals) (vncscr : rfbScreenInfo),
      SessionInv g →
      value = -1 ∨ value = 0 ∨ value = 90 ∨ value = 180 ∨ value = 270 →
      SessionInv (rotate sf value g vncscr).1) := by
  refine ⟨by decide, fun env argv i j g g1 hinv h => argStep_inv env argv i j g g1 hinv h, ?_⟩
  intro sf value g vncscr hinv hv
  obtain ⟨hrot, hs1, hs2⟩ := hinv
  refine ⟨?_, hs1, hs2⟩
  show (if value = -1 then toU16 (toU16 ((g.rotation : Int) + 90) % 360) else toU16 value) = 0 ∨
    (if value = -1 then toU16 (toU16 ((g.rotation : Int) + 90) % 360) else toU16 value) = 90 ∨
    (if value = -1 then toU16 (toU16 ((g.rotation : Int) + 90) % 360) else toU16 value) = 180 ∨
    (if value = -1 then toU16 (toU16 ((g.rotation : Int) + 90) % 360) else toU16 value) = 270
  unfold toU16
  rcases hv with h | h | h | h | h <;> subst h <;>
    simp only [Int.reduceNeg, if_true, Int.reduceEq, if_false] <;>
    rcases hrot with r | r | r | r <;> (try rw [r]) <;> decide

/-- C18 (witness): `-s 200` and `-r 45` keep the invariant of the initial state, and so
does `rotate(-1)`, which moves the rotation from 0 to 90. -/
theorem session_invariant_preserved_witness :
    SessionInv initialGlobals ∧
    (∃ g1 : Globals,
      argStep okEnv (cmdline ["vnc", "-s", "200", "-r", "45"]) 1 initialGlobals
        = Except.ok (3, g1) ∧ SessionInv g1) ∧
    SessionInv (rotate format10x4 (-1) initialGlobals screen10x4).1 ∧
    (rotate format10x4 (-1) initialGlobals screen10x4).1.rotation = 90 :=
  ⟨session_invariant_preserved.1,
   ⟨_, rfl, session_invariant_preserved.2.1 okEnv
     (cmdline ["vnc", "-s", "200", "-r", "45"]) 1 3 initialGlobals _
     session_invariant_preserved.1 rfl⟩,
   session_invariant_preserved.2.2 format10x4 (-1) initialGlobals screen10x4
     session_invariant_preserved.1 (Or.inl rfl),
   by decide⟩

/-! ## C19: capture orientation of the FLINGER backend -/

/-- C19 (the code at the failing input): on a display whose orientation index is 1 (90
degrees) a successful `init_flinger` captures with `eRotate270`, but it leaves the
file-scope `captureOrientation` at `eRotateNone`, and every later `readfb_flinger` captures
with `eRotateNone`; for every display and every state, `init_flinger` does not change the
file-scope `captureOrientation` that `readfb_flinger` uses. -/
theorem readfb_flinger_ignores_init_orientation :
    init_flinger display90 flingerInitial
      = (0, { captureOrientation := Rotation.eRotateNone,
              updates := [Rotation.eRotate270] }) ∧
    ORIENTATION_MAP 1 = Rotation.eRotate270 ∧
    (readfb_flinger_times 3 (init_flinger display90 flingerInitial).2).updates
      = [Rotation.eRotate270, Rotation.eRotateNone, Rotation.eRotateNone,
          Rotation.eRotateNone] ∧
    (∀ (env : FlingerEnv) (st : FlingerState) (n : Nat),
      (init_flinger env st).2.captureOrientation = st.captureOrientation ∧
      (readfb_flinger_times n (init_flinger env st).2).updates
        = (init_flinger env st).2.updates ++ List.replicate n st.captureOrientation) := by
  refine ⟨by decide, by decide, by decide, ?_⟩
  intro env st n
  have h : (init_flinger env st).2.captureOrientation = st.captureOrientation := by
    unfold init_flinger
    split_ifs
    all_goals first
      | rfl
      | (split <;> rfl)
  refine ⟨h, ?_⟩
  rw [(readfb_flinger_times_updates n _).1, h]

/-! ## C20: a client leaves -/

/-- C20 (as stated, refuted): a client is connected and the loop is running; in the pass in
which that client leaves, `clientGone` sets `running` to 0, and the loop makes no further
pass although events remain: it stops instead of staying idle. -/
theorem client_gone_stops_loop :
    (loopIteration oneClient (entryState (rfbGetScreen 10 4 4) 32)).g.running = 1 ∧
    (loopIteration clientLeaves
        (loopIteration oneClient (entryState (rfbGetScreen 10 4 4) 32))).g.running = 0 ∧
    (clientGone (entryState (rfbGetScreen 10 4 4) 32)).g.running = 0 ∧
    (loopTrace [oneClient, clientLeaves, noClient, noClient]
        (entryState (rfbGetScreen 10 4 4) 32)).length = 2 := by
  decide

/-- C20 (amended): when a client leaves, `clientGone` calls `rfbShutdownServer` and sets
`running` to 0; the pass in which this happens is completed, setting `idle` when the roster
is empty, and the publication loop then stops: it makes no further pass. -/
theorem client_gone_ends_loop (ev : Events) (s : LoopState) (rest : List Events)
    (hgone : ev.gone = true) :
    (clientGone s).g.running = 0 ∧ (clientGone s).shutdowns = s.shutdowns + 1 ∧
    (loopIteration ev s).g.running = 0 ∧
    (loopIteration ev s).shutdowns = s.shutdowns + 1 ∧
    (ev.clients = [] → (loopIteration ev s).g.idle = 1) ∧
    publicationLoop rest (loopIteration ev s) = loopIteration ev s ∧
    loopTrace rest (loopIteration ev s) = [] := by
  have hr : (rfbProcessEvents ev s).g.running = 0 ∧
      (rfbProcessEvents ev s).shutdowns = s.shutdowns + 1 := by
    unfold rfbProcessEvents
    rw [if_pos hgone]
    exact ⟨rfl, rfl⟩
  have hrun : (loopIteration ev s).g.running = 0 := by
    unfold loopIteration afterEvents
    split
    · simp only [pace]
      split <;> exact hr.1
    · simp only [update_screen, pace]
      split <;> exact hr.1
  have hsh : (loopIteration ev s).shutdowns = s.shutdowns + 1 := by
    unfold loopIteration afterEvents
    split <;> exact hr.2
  refine ⟨rfl, rfl, hrun, hsh, ?_, ?_, ?_⟩
  · intro hc
    have hcl := (rfbProcessEvents_fields ev s).2.1
    unfold loopIteration afterEvents
    rw [if_pos (hcl.trans hc)]
  · cases rest with
    | nil => rfl
    | cons e r => rw [publicationLoop, if_neg (by rw [hrun]; decide)]
  · cases rest with
    | nil => rfl
    | cons e r => rw [loopTrace, if_neg (by rw [hrun]; decide)]

/-- C20 (witness): the only client leaves in the second pass; the loop stops after it. -/
theorem client_gone_ends_loop_witness :
    (loopIteration clientLeaves
        (loopIteration oneClient (entryState (rfbGetScreen 10 4 4) 32))).g.running = 0 ∧
    publicationLoop [noClient, noClient]
        (loopIteration clientLeaves
          (loopIteration oneClient (entryState (rfbGetScreen 10 4 4) 32)))
      = loopIteration clientLeaves
          (loopIteration oneClient (entryState (rfbGetScreen 10 4 4) 32)) :=
  have h := client_gone_ends_loop clientLeaves
    (loopIteration oneClient (entryState (rfbGetScreen 10 4 4) 32)) [noClient, noClient] rfl
  ⟨h.2.2.1, h.2.2.2.2.2.1⟩

/-! ## Lemmas on the reads of the argument vector -/

theorem stepReads_le (argv : List CStr) (i m : Nat) (hi : i < argv.length)
    (hm : m ∈ stepReads argv i) : m ≤ argv.length := by
  unfold stepReads at hm
  split at hm
  · split at hm
    · simp only [List.mem_cons, List.mem_singleton, List.mem_nil_iff, or_false] at hm
      omega
    · simp only [List.mem_singleton] at hm
      omega
  · simp only [List.mem_singleton] at hm
    omega

theorem argReads_le (env : Env) (argv : List CStr) (fuel : Nat) :
    ∀ (i : Nat) (g : Globals) (m : Nat), m ∈ argReads env argv fuel i g → m ≤ argv.length := by
  induction fuel with
  | zero =>
    intro i g m hm
    unfold argReads at hm
    split at hm <;> exact absurd hm (List.not_mem_nil _)
  | succ n ih =>
    intro i g m hm
    rw [argReads] at hm
    by_cases hi : i < argv.length
    · rw [if_pos hi] at hm
      rcases List.mem_append.mp hm with h | h
      · exact stepReads_le argv i m hi h
      · cases hs : argStep env argv i g with
        | error e =>
          rw [hs] at h
          exact absurd h (List.not_mem_nil _)
        | ok r =>
          obtain ⟨j, g1⟩ := r
          rw [hs] at h
          exact ih j g1 m h
    · rw [if_neg hi] at hm
      exact absurd hm (List.not_mem_nil _)

theorem flagSwitch_value_null (env : Env) (k : Fin valueFlags.length) (i : Nat)
    (g : Globals) :
    flagSwitch env (valueFlags.get k) none i g = Except.error Abort.nullDeref := by
  unfold flagSwitch
  fin_cases k <;>
    simp only [valueFlags, List.get, Char.reduceEq, if_true, if_false, flagValue]

/-! ## C21: reads of the argument loop -/

/-- C21 (the code at the failing input): the argument loop always ends (it never exhausts
its `argc` passes) and never dereferences an index above `argc`, but a flag that takes a
value and stands last reads `argv[argc]`, the null pointer: for `["vnc", "-r"]` the loop
dereferences the indices 1 and 2 with `argc = 2` and the run faults; the same holds for
each of `-d`, `-p`, `-f`, `-P`, `-r`, `-s`, `-R`, `-i`, `-m` as last argument after any
arguments before it. -/
theorem value_flag_last_reads_argv_argc :
    parseArgs okEnv (cmdline ["vnc", "-r"]) initialGlobals = Except.error Abort.nullDeref ∧
    argReads okEnv (cmdline ["vnc", "-r"]) 2 1 initialGlobals = [1, 2] ∧
    (cmdline ["vnc", "-r"]).length = 2 ∧
    valueFlags.all (fun c =>
      decide (parseArgs okEnv ["vnc".toList, ['-', c]] initialGlobals
        = Except.error Abort.nullDeref)) = true ∧
    (∀ (env : Env) (pre : List CStr) (k : Fin valueFlags.length) (rest : CStr) (g : Globals),
      argStep env (pre ++ [('-' :: valueFlags.get k :: rest)]) pre.length g
        = Except.error Abort.nullDeref ∧
      pre.length + 1 ∈ stepReads (pre ++ [('-' :: valueFlags.get k :: rest)]) pre.length ∧
      (pre ++ [('-' :: valueFlags.get k :: rest)]).length = pre.length + 1) ∧
    (∀ (env : Env) (argv : List CStr) (g : Globals),
      parseArgs env argv g ≠ Except.error Abort.fuel ∧
      (argReads env argv argv.length 1 g).all (fun m => decide (m ≤ argv.length)) = true) := by
  refine ⟨by decide, by decide, by decide, by decide, ?_, ?_⟩
  · intro env pre k rest g
    have hcur : (pre ++ [('-' :: valueFlags.get k :: rest)])[pre.length]?
        = some ('-' :: valueFlags.get k :: rest) := by
      rw [List.getElem?_append_right (le_refl _)]
      simp
    have hnext : (pre ++ [('-' :: valueFlags.get k :: rest)])[pre.length + 1]? = none := by
      rw [List.getElem?_eq_none_iff]
      simp
    refine ⟨?_, ?_, by simp⟩
    · unfold argStep
      rw [hcur, hnext]
      simp only []
      unfold argBody
      rw [if_pos (show ('-' :: valueFlags.get k :: rest).head? = some '-' from rfl)]
      exact flagSwitch_value_null env k _ g
    · unfold stepReads
      rw [hcur]
      simp only []
      rw [if_pos (show ('-' :: valueFlags.get k :: rest).head? = some '-' ∧
        ('-' :: valueFlags.get k :: rest).getD 1 NUL ∈ valueFlags from
        ⟨rfl, List.get_mem _ _ _⟩)]
      simp
  · intro env argv g
    refine ⟨parseArgs_fuel env argv g, ?_⟩
    rw [List.all_eq_true]
    intro m hm
    exact decide_eq_true (argReads_le env argv _ 1 g m hm)

end DroidVnc
